import Mathlib

/-!
Verification of the Protein-Swap HTLC escrow contracts.

The repository implements the same hash-time-locked escrow three times
(NEAR, Soroban/Stellar, CosmWasm) plus a NEP-141 fungible token contract.
This file gives a shallow embedding of the escrow state machines and the
token resolve-transfer callback, and proves (or refutes) the specified
properties about them.

Machine integers (u64, u128, Uint128) are embedded as `Nat` (overflow is
unreachable in the checked paths); Soroban's `i128` amount is embedded as
`Int`.  Byte strings (hashes, secrets) are `List Nat` of byte values.
SHA-256 is implemented in full so that the hash-commitment checks compute.

Storage: every variant keys escrows by the pair `(order_id, owner)`.  The
concrete encodings differ (NEAR hashes the pair into a hex string, CosmWasm
formats `"order_id:owner"`, Soroban uses a native composite key); per the
specification these encodings are implementation details and the pair is
the canonical identity, so the embedding uses the pair itself as the key.
Host maps are association lists with first-match lookup; an insert prepends,
which models overwriting under that lookup.
-/

set_option maxRecDepth 10000

namespace Sha256

/-- Truncate to a 32-bit word. -/
def w32 (x : Nat) : Nat := x % 4294967296

/-- Rotate a 32-bit word right by `n` bits. -/
def rotr (n x : Nat) : Nat := w32 ((x >>> n) ||| (x <<< (32 - n)))

/-- Bitwise complement of a 32-bit word. -/
def compl32 (x : Nat) : Nat := x ^^^ 4294967295

def smallSigma0 (x : Nat) : Nat := (rotr 7 x) ^^^ (rotr 18 x) ^^^ (x >>> 3)

def smallSigma1 (x : Nat) : Nat := (rotr 17 x) ^^^ (rotr 19 x) ^^^ (x >>> 10)

def bigSigma0 (x : Nat) : Nat := (rotr 2 x) ^^^ (rotr 13 x) ^^^ (rotr 22 x)

def bigSigma1 (x : Nat) : Nat := (rotr 6 x) ^^^ (rotr 11 x) ^^^ (rotr 25 x)

def ch (x y z : Nat) : Nat := (x &&& y) ^^^ (compl32 x &&& z)

def maj (x y z : Nat) : Nat := (x &&& y) ^^^ (x &&& z) ^^^ (y &&& z)

/-- The 64 round constants of SHA-256 (FIPS 180-4, in decimal). -/
def K : List Nat :=
  [1116352408, 1899447441, 3049323471, 3921009573, 961987163, 1508970993,
   2453635748, 2870763221, 3624381080, 310598401, 607225278, 1426881987,
   1925078388, 2162078206, 2614888103, 3248222580, 3835390401, 4022224774,
   264347078, 604807628, 770255983, 1249150122, 1555081692, 1996064986,
   2554220882, 2821834349, 2952996808, 3210313671, 3336571891, 3584528711,
   113926993, 338241895, 666307205, 773529912, 1294757372, 1396182291,
   1695183700, 1986661051, 2177026350, 2456956037, 2730485921, 2820302411,
   3259730800, 3345764771, 3516065817, 3600352804, 4094571909, 275423344,
   430227734, 506948616, 659060556, 883997877, 958139571, 1322822218,
   1537002063, 1747873779, 1955562222, 2024104815, 2227730452, 2361852424,
   2428436474, 2756734187, 3204031479, 3329325298]

/-- Hash state: eight 32-bit working variables. -/
structure Hs where
  a : Nat
  b : Nat
  c : Nat
  d : Nat
  e : Nat
  f : Nat
  g : Nat
  h : Nat
deriving DecidableEq

/-- Initial hash value. -/
def initHs : Hs :=
  ⟨1779033703, 3144134277, 1013904242, 2773480762, 1359893119, 2600822924, 528734635, 1541459225⟩

/-- Message schedule: expand a 64-byte chunk to 64 words. -/
def schedule (chunk : List Nat) : Array Nat :=
  let w0 : Array Nat := ((List.range 16).map (fun i =>
      w32 ((chunk.getD (4 * i) 0) <<< 24 + (chunk.getD (4 * i + 1) 0) <<< 16 +
           (chunk.getD (4 * i + 2) 0) <<< 8 + chunk.getD (4 * i + 3) 0))).toArray
  (List.range 48).foldl (fun w j =>
      let i := j + 16
      w.push (w32 (w.getD (i - 16) 0 + smallSigma0 (w.getD (i - 15) 0) +
                   w.getD (i - 7) 0 + smallSigma1 (w.getD (i - 2) 0)))) w0

/-- One compression round. -/
def round (k wt : Nat) (s : Hs) : Hs :=
  let t1 := w32 (s.h + bigSigma1 s.e + ch s.e s.f s.g + k + wt)
  let t2 := w32 (bigSigma0 s.a + maj s.a s.b s.c)
  ⟨w32 (t1 + t2), s.a, s.b, s.c, w32 (s.d + t1), s.e, s.f, s.g⟩

/-- Compress one 64-byte chunk into the running state. -/
def compress (s0 : Hs) (chunk : List Nat) : Hs :=
  let w := schedule chunk
  let s := (List.range 64).foldl (fun s i => round (K.getD i 0) (w.getD i 0) s) s0
  ⟨w32 (s0.a + s.a), w32 (s0.b + s.b), w32 (s0.c + s.c), w32 (s0.d + s.d),
   w32 (s0.e + s.e), w32 (s0.f + s.f), w32 (s0.g + s.g), w32 (s0.h + s.h)⟩

/-- Merkle–Damgard padding: 0x80, zeros to 56 mod 64, 8-byte big-endian bit length. -/
def pad (msg : List Nat) : List Nat :=
  let len := msg.length
  let zeros := (120 - ((len + 1) % 64)) % 64
  let bitLen := len * 8
  msg ++ [128] ++ List.replicate zeros 0 ++
    (List.range 8).map (fun i => (bitLen >>> ((7 - i) * 8)) % 256)

/-- Compress `n` successive 64-byte chunks of `l` into the running state. -/
def processChunks (s : Hs) (l : List Nat) : Nat → Hs
  | 0 => s
  | n + 1 => processChunks (compress s (l.take 64)) (l.drop 64) n

/-- A 32-bit word as four big-endian bytes. -/
def wordBytes (x : Nat) : List Nat := [(x >>> 24) % 256, (x >>> 16) % 256, (x >>> 8) % 256, x % 256]

/-- The digest bytes of a final state. -/
def stateBytes (s : Hs) : List Nat :=
  wordBytes s.a ++ wordBytes s.b ++ wordBytes s.c ++ wordBytes s.d ++
  wordBytes s.e ++ wordBytes s.f ++ wordBytes s.g ++ wordBytes s.h

/-- SHA-256 of a byte string, as its 32 digest bytes. -/
def sha256 (msg : List Nat) : List Nat :=
  let p := pad msg
  stateBytes (processChunks initHs p (p.length / 64))

/-- SHA-256 digests are exactly 32 bytes long. -/
theorem sha256_length (msg : List Nat) : (sha256 msg).length = 32 := by
  simp [sha256, stateBytes, wordBytes]

/-- The embedding agrees with the FIPS 180-4 test vector for "abc". -/
theorem sha256_abc :
    sha256 [97, 98, 99] =
      [186, 120, 22, 191, 143, 1, 207, 234, 65, 65, 64,
       222, 93, 174, 34, 35, 176, 3, 97, 163, 150, 23,
       122, 156, 180, 16, 255, 97, 242, 0, 21, 173] := by decide

end Sha256

namespace KVMap

/-- First-match lookup in an association list keyed by `(order_id, owner)`.
Models the hosts' keyed storage reads (`LookupMap.get`, `Map.may_load`,
`storage().persistent().get`). -/
def find? {β : Type} : List ((String × String) × β) → (String × String) → Option β
  | [], _ => none
  | (k', v) :: rest, k => if k' = k then some v else find? rest k

@[simp] theorem find?_nil {β : Type} (k : String × String) :
    find? ([] : List ((String × String) × β)) k = none := rfl

@[simp] theorem find?_cons {β : Type} (k' k : String × String) (v : β)
    (rest : List ((String × String) × β)) :
    find? ((k', v) :: rest) k = if k' = k then some v else find? rest k := rfl

end KVMap

/-! ## NEAR escrow contract

Embedding of `src/Protein Swap/Near/Escrow-Contract/src/lib.rs`
(`AtomicSwapEscrow`).  `require!` failures panic on NEAR and revert the
call; the embedding returns the untouched state together with the error
kind of the violated `require!` message.  `now` is the ledger time in
seconds (`env::block_timestamp() / 1_000_000_000`); `caller` is
`env::predecessor_account_id()`. -/

namespace Near

abbrev AccountId := String

inductive EscrowStatus
  | ACTIVE
  | COMPLETED
  | CANCELLED
deriving DecidableEq

structure Escrow where
  order_id : String
  hash : List Nat
  owner : AccountId
  taker : AccountId
  token_contract : AccountId
  amount : Nat
  timelock : Nat
  status : EscrowStatus
  created_at : Nat
deriving DecidableEq

/-- Contract state: the escrow map, the contract-level owner (admin, set to
the deployer in `new`), and the escrow counter. -/
structure Contract where
  escrows : List ((String × AccountId) × Escrow)
  owner : AccountId
  escrow_count : Nat
deriving DecidableEq

/-- Error kinds, one per distinct `require!` / `expect` failure message. -/
inductive Err
  | invalidAmount
  | invalidHash
  | invalidTimelock
  | alreadyExists
  | notFound
  | unauthorized
  | notActive
  | timelockExpired
  | timelockNotExpired
  | hashMismatch
deriving DecidableEq

/-- An `ft_transfer` promise issued against a token contract. -/
structure Transfer where
  token_contract : AccountId
  receiver : AccountId
  amount : Nat
deriving DecidableEq

/-- Outcome of one contract call: resulting state, issued transfers, error. -/
structure Res where
  state : Contract
  transfers : List Transfer
  err : Option Err
deriving DecidableEq

/-- `validate_secret`: the SHA-256 of the secret equals the stored hash. -/
def validate_secret (secret expected_hash : List Nat) : Prop :=
  Sha256.sha256 secret = expected_hash

instance (secret expected_hash : List Nat) : Decidable (validate_secret secret expected_hash) := by
  unfold validate_secret; infer_instance

/-- `create_escrow`.  The source derives the storage key by hashing
`(order_id, caller)`; the pair itself is used here (see the header note). -/
def create_escrow (c : Contract) (caller : AccountId) (order_id : String)
    (hash : List Nat) (taker token_contract : AccountId) (amount : Nat)
    (timelock_duration : Nat) (now : Nat) : Res :=
  if 0 < amount then
    if hash.length = 32 then
      if 0 < timelock_duration then
        if (KVMap.find? c.escrows (order_id, caller)).isSome then
          ⟨c, [], some .alreadyExists⟩
        else
          let timelock := now + timelock_duration
          let escrow : Escrow :=
            ⟨order_id, hash, caller, taker, token_contract, amount, timelock, .ACTIVE, now⟩
          ⟨⟨((order_id, caller), escrow) :: c.escrows, c.owner, c.escrow_count + 1⟩, [], none⟩
      else ⟨c, [], some .invalidTimelock⟩
    else ⟨c, [], some .invalidHash⟩
  else ⟨c, [], some .invalidAmount⟩

/-- `reveal_secret`. -/
def reveal_secret (c : Contract) (caller : AccountId) (order_id : String)
    (owner : AccountId) (secret : List Nat) (now : Nat) : Res :=
  match KVMap.find? c.escrows (order_id, owner) with
  | none => ⟨c, [], some .notFound⟩
  | some escrow =>
    if caller = escrow.taker ∨ caller = c.owner then
      if escrow.status = .ACTIVE then
        if now < escrow.timelock then
          if validate_secret secret escrow.hash then
            ⟨⟨((order_id, owner), { escrow with status := .COMPLETED }) :: c.escrows,
              c.owner, c.escrow_count⟩,
             [⟨escrow.token_contract, escrow.taker, escrow.amount⟩], none⟩
          else ⟨c, [], some .hashMismatch⟩
        else ⟨c, [], some .timelockExpired⟩
      else ⟨c, [], some .notActive⟩
    else ⟨c, [], some .unauthorized⟩

/-- `cancel_escrow`.  The timelock-expiry check applies to every caller,
the contract owner included. -/
def cancel_escrow (c : Contract) (caller : AccountId) (order_id : String)
    (owner : AccountId) (now : Nat) : Res :=
  match KVMap.find? c.escrows (order_id, owner) with
  | none => ⟨c, [], some .notFound⟩
  | some escrow =>
    if caller = escrow.owner ∨ caller = c.owner then
      if escrow.status = .ACTIVE then
        if escrow.timelock ≤ now then
          ⟨⟨((order_id, owner), { escrow with status := .CANCELLED }) :: c.escrows,
            c.owner, c.escrow_count⟩,
           [⟨escrow.token_contract, escrow.owner, escrow.amount⟩], none⟩
        else ⟨c, [], some .timelockNotExpired⟩
      else ⟨c, [], some .notActive⟩
    else ⟨c, [], some .unauthorized⟩

/-- `escrow_exists` view. -/
def escrow_exists (c : Contract) (order_id : String) (owner : AccountId) : Bool :=
  (KVMap.find? c.escrows (order_id, owner)).isSome

/-- `get_escrow` view. -/
def get_escrow (c : Contract) (order_id : String) (owner : AccountId) : Option Escrow :=
  KVMap.find? c.escrows (order_id, owner)

/-- `is_escrow_active` view: false for an unknown key. -/
def is_escrow_active (c : Contract) (order_id : String) (owner : AccountId) : Bool :=
  match KVMap.find? c.escrows (order_id, owner) with
  | some escrow => decide (escrow.status = .ACTIVE)
  | none => false

/-- `is_timelock_expired` view: false for an unknown key. -/
def is_timelock_expired (c : Contract) (order_id : String) (owner : AccountId)
    (now : Nat) : Bool :=
  match KVMap.find? c.escrows (order_id, owner) with
  | some escrow => decide (escrow.timelock ≤ now)
  | none => false

/-- `ft_on_transfer`: the deposit-then-notify callback.  The source logs the
transfer and returns `U128(0)` ("accept all tokens"); it parses nothing,
validates nothing and stores nothing. -/
def ft_on_transfer (c : Contract) (sender_id : AccountId) (amount : Nat)
    (msg : String) : Contract × Nat :=
  (c, 0)

/-- One externally callable mutating operation with its arguments. -/
inductive Op
  | create (caller order_id : String) (hash : List Nat) (taker token_contract : AccountId)
      (amount timelock_duration now : Nat)
  | reveal (caller order_id : String) (owner : AccountId) (secret : List Nat) (now : Nat)
  | cancel (caller order_id : String) (owner : AccountId) (now : Nat)
  | onTransfer (sender : AccountId) (amount : Nat) (msg : String)

/-- The state reached by one operation. -/
def applyOp (c : Contract) : Op → Contract
  | .create caller oid hash taker tc amt dur now =>
      (create_escrow c caller oid hash taker tc amt dur now).state
  | .reveal caller oid ow secret now => (reveal_secret c caller oid ow secret now).state
  | .cancel caller oid ow now => (cancel_escrow c caller oid ow now).state
  | .onTransfer s a m => (ft_on_transfer c s a m).1

/-- The state reached by a sequence of operations. -/
def run (c : Contract) : List Op → Contract
  | [] => c
  | op :: ops => run (applyOp c op) ops

end Near

/-! ## Soroban (Stellar) escrow contract

Embedding of
`src/Protein Swap/stellar/escrow-contract/contracts/hello-world/src/lib.rs`
(`AtomicSwapEscrowContract`).  Operations return `Result<(), Error>`; a
returned error reverts the invocation, so the embedding threads the store
and returns it untouched on every error path (which is also what the code
does: every write follows every check).  `amount` is an `i128`; `now` is
`env.ledger().timestamp()` in seconds.  `require_auth` is consumed as the
host-provided fact that the call is authorized by the stated address. -/

namespace Stellar

abbrev Address := String

inductive EscrowStatus
  | Active
  | Completed
  | Cancelled
deriving DecidableEq

structure Escrow where
  order_id : String
  hash : List Nat
  owner : Address
  taker : Address
  token_contract : Address
  amount : Int
  timelock : Nat
  status : EscrowStatus
  created_at : Nat
deriving DecidableEq

inductive Error
  | NotAuthorized
  | EscrowNotFound
  | HashMismatch
  | TimelockNotExpired
  | TimelockExpired
  | InvalidAmount
  | EscrowAlreadyExists
  | EscrowNotActive
deriving DecidableEq

/-- A `transfer` invocation on a token contract. -/
structure Transfer where
  token : Address
  src : Address
  dst : Address
  amount : Int
deriving DecidableEq

abbrev Store := List ((String × Address) × Escrow)

/-- Outcome of one contract invocation. -/
structure Res where
  store : Store
  transfers : List Transfer
  err : Option Error
deriving DecidableEq

/-- The contract deployer address hard-coded into `reveal_secret` and
`cancel_escrow` as the administrative override principal. -/
def contract_deployer : Address :=
  "GDGFQGWD6DE6ZZO6F5SWBDB7N7RCYCW4B36IMNNLJKQHOYIKRSSVU6E2"

/-- Stand-in for `env.current_contract_address()`: the escrow custody account. -/
def contract_address : Address := "escrow-contract"

/-- `create_escrow`: rejects only `amount == 0` and an existing key; hash
length and `timelock_duration` are not validated. -/
def create_escrow (st : Store) (owner : Address) (order_id : String)
    (hash : List Nat) (taker token_contract : Address) (amount : Int)
    (timelock_duration now : Nat) : Res :=
  if amount = 0 then ⟨st, [], some .InvalidAmount⟩
  else if (KVMap.find? st (order_id, owner)).isSome then
    ⟨st, [], some .EscrowAlreadyExists⟩
  else
    let timelock := now + timelock_duration
    let escrow : Escrow :=
      ⟨order_id, hash, owner, taker, token_contract, amount, timelock, .Active, now⟩
    ⟨((order_id, owner), escrow) :: st,
     [⟨token_contract, owner, contract_address, amount⟩], none⟩

/-- `reveal_secret`: status is checked before authorization; the admin
override principal is the hard-coded deployer. -/
def reveal_secret (st : Store) (caller : Address) (order_id : String)
    (owner : Address) (secret : List Nat) (now : Nat) : Res :=
  match KVMap.find? st (order_id, owner) with
  | none => ⟨st, [], some .EscrowNotFound⟩
  | some escrow =>
    if escrow.status = .Active then
      if caller = escrow.taker ∨ caller = contract_deployer then
        if now < escrow.timelock then
          if Sha256.sha256 secret = escrow.hash then
            ⟨((order_id, owner), { escrow with status := .Completed }) :: st,
             [⟨escrow.token_contract, contract_address, escrow.taker, escrow.amount⟩], none⟩
          else ⟨st, [], some .HashMismatch⟩
        else ⟨st, [], some .TimelockExpired⟩
      else ⟨st, [], some .NotAuthorized⟩
    else ⟨st, [], some .EscrowNotActive⟩

/-- `cancel_escrow`: the timelock-expiry check applies to every caller,
the deployer included. -/
def cancel_escrow (st : Store) (caller : Address) (order_id : String)
    (owner : Address) (now : Nat) : Res :=
  match KVMap.find? st (order_id, owner) with
  | none => ⟨st, [], some .EscrowNotFound⟩
  | some escrow =>
    if escrow.status = .Active then
      if caller = escrow.owner ∨ caller = contract_deployer then
        if now < escrow.timelock then ⟨st, [], some .TimelockNotExpired⟩
        else
          ⟨((order_id, owner), { escrow with status := .Cancelled }) :: st,
           [⟨escrow.token_contract, contract_address, escrow.owner, escrow.amount⟩], none⟩
      else ⟨st, [], some .NotAuthorized⟩
    else ⟨st, [], some .EscrowNotActive⟩

/-- `escrow_exists` view. -/
def escrow_exists (st : Store) (order_id : String) (owner : Address) : Bool :=
  (KVMap.find? st (order_id, owner)).isSome

/-- `get_escrow` view: fails with `EscrowNotFound` for an unknown key. -/
def get_escrow (st : Store) (order_id : String) (owner : Address) :
    Except Error Escrow :=
  match KVMap.find? st (order_id, owner) with
  | none => .error .EscrowNotFound
  | some escrow => .ok escrow

/-- `is_escrow_active` view: propagates `EscrowNotFound` for an unknown key. -/
def is_escrow_active (st : Store) (order_id : String) (owner : Address) :
    Except Error Bool :=
  match get_escrow st order_id owner with
  | .error e => .error e
  | .ok escrow => .ok (decide (escrow.status = .Active))

/-- `is_timelock_expired` view: propagates `EscrowNotFound` for an unknown key. -/
def is_timelock_expired (st : Store) (order_id : String) (owner : Address)
    (now : Nat) : Except Error Bool :=
  match get_escrow st order_id owner with
  | .error e => .error e
  | .ok escrow => .ok (decide (escrow.timelock ≤ now))

/-- One externally callable mutating operation with its arguments. -/
inductive Op
  | create (owner order_id : String) (hash : List Nat) (taker token_contract : Address)
      (amount : Int) (timelock_duration now : Nat)
  | reveal (caller order_id : String) (owner : Address) (secret : List Nat) (now : Nat)
  | cancel (caller order_id : String) (owner : Address) (now : Nat)

/-- The store reached by one operation. -/
def applyOp (st : Store) : Op → Store
  | .create ow oid hash taker tc amt dur now =>
      (create_escrow st ow oid hash taker tc amt dur now).store
  | .reveal caller oid ow secret now => (reveal_secret st caller oid ow secret now).store
  | .cancel caller oid ow now => (cancel_escrow st caller oid ow now).store

/-- The store reached by a sequence of operations. -/
def run (st : Store) : List Op → Store
  | [] => st
  | op :: ops => run (applyOp st op) ops

end Stellar

/-! ## CosmWasm escrow contract

Embedding of `src/Protein Swap/z-cosmos-not-deployed/contract.rs`.  A
returned `Err` reverts the transaction, and every write follows every
check, so error paths return the untouched state.  `sender` is
`info.sender`; `now` is `env.block.time.seconds()`.  `ESCROWS.load` on a
missing key surfaces as `StdError::NotFound`, embedded as `.StdNotFound`;
`StdError::generic_err` messages are embedded as `.Std msg`. -/

namespace Cosmos

abbrev Addr := String

inductive TokenInfo
  | Native (denom : String)
  | Cw20 (contract_addr : Addr)
deriving DecidableEq

inductive EscrowStatus
  | Active
  | Completed
  | Cancelled
deriving DecidableEq

structure Escrow where
  order_id : String
  hash : List Nat
  owner : Addr
  taker : Addr
  token : TokenInfo
  amount : Nat
  timelock : Nat
  status : EscrowStatus
  created_at : Nat
deriving DecidableEq

inductive ContractError
  | Std (msg : String)
  | StdNotFound
  | Unauthorized
  | EscrowNotFound
  | HashMismatch
  | TimelockNotExpired
  | TimelockExpired
  | InvalidAmount
  | EscrowAlreadyExists
  | EscrowNotActive
  | InvalidToken
deriving DecidableEq

/-- A transfer message added to the response. -/
inductive CosmosMsg
  | bankSend (to_address : Addr) (denom : String) (amount : Nat)
  | cw20Transfer (contract_addr : Addr) (recipient : Addr) (amount : Nat)
deriving DecidableEq

/-- Contract state: the escrow map and the stored contract owner. -/
structure State where
  escrows : List ((String × Addr) × Escrow)
  contract_owner : Addr
deriving DecidableEq

/-- Outcome of one execute call. -/
structure Res where
  state : State
  msgs : List CosmosMsg
  err : Option ContractError
deriving DecidableEq

/-- `hash_secret`: SHA-256 of the secret bytes. -/
def hash_secret (secret : List Nat) : List Nat := Sha256.sha256 secret

/-- The transfer message built for a token type (`BankMsg::Send` for native,
`Cw20ExecuteMsg::Transfer` for CW20). -/
def transfer_msg (token : TokenInfo) (recipient : Addr) (amount : Nat) : CosmosMsg :=
  match token with
  | .Native denom => .bankSend recipient denom amount
  | .Cw20 addr => .cw20Transfer addr recipient amount

/-- The creation parameters carried in a CW20 `Receive` message. -/
structure CreateEscrowMsg where
  order_id : String
  hash : List Nat
  taker : Addr
  timelock_duration : Nat
deriving DecidableEq

/-- `execute_create_escrow`.  `funds` is `info.funds` as `(denom, amount)`
pairs.  Rejects zero amount, an empty hash, an existing key, a native-funds
mismatch, and the CW20 token type (which must come through the receive
hook); `timelock_duration` and the hash length are not validated. -/
def execute_create_escrow (s : State) (sender : Addr) (funds : List (String × Nat))
    (order_id : String) (hash : List Nat) (taker : Addr) (token : TokenInfo)
    (amount : Nat) (timelock_duration now : Nat) : Res :=
  if amount = 0 then ⟨s, [], some .InvalidAmount⟩
  else if hash = [] then ⟨s, [], some (.Std "Hash cannot be empty")⟩
  else if (KVMap.find? s.escrows (order_id, sender)).isSome then
    ⟨s, [], some .EscrowAlreadyExists⟩
  else
    match token with
    | .Native denom =>
      let sent_amount := (((funds.find? (fun c => decide (c.1 = denom))).map Prod.snd).getD 0)
      if sent_amount = amount then
        let timelock := now + timelock_duration
        let escrow : Escrow :=
          ⟨order_id, hash, sender, taker, token, amount, timelock, .Active, now⟩
        ⟨⟨((order_id, sender), escrow) :: s.escrows, s.contract_owner⟩, [], none⟩
      else ⟨s, [], some .InvalidAmount⟩
    | .Cw20 _ =>
      ⟨s, [], some (.Std "CW20 tokens must be sent via transfer with receive hook")⟩

/-- `execute_receive_cw20`: the deposit-then-notify creation path.
`info_sender` is the calling CW20 token contract; `receive_sender` is the
original token sender (the escrow owner); `parsed_msg` is the result of
deserializing the carried JSON (`none` models a parse failure). -/
def execute_receive_cw20 (s : State) (info_sender : Addr) (receive_sender : Addr)
    (receive_amount : Nat) (parsed_msg : Option CreateEscrowMsg) (now : Nat) : Res :=
  match parsed_msg with
  | none => ⟨s, [], some (.Std "Invalid create escrow message")⟩
  | some create_msg =>
    if receive_amount = 0 then ⟨s, [], some .InvalidAmount⟩
    else if create_msg.hash = [] then ⟨s, [], some (.Std "Hash cannot be empty")⟩
    else if (KVMap.find? s.escrows (create_msg.order_id, receive_sender)).isSome then
      ⟨s, [], some .EscrowAlreadyExists⟩
    else
      let timelock := now + create_msg.timelock_duration
      let escrow : Escrow :=
        ⟨create_msg.order_id, create_msg.hash, receive_sender, create_msg.taker,
         .Cw20 info_sender, receive_amount, timelock, .Active, now⟩
      ⟨⟨((create_msg.order_id, receive_sender), escrow) :: s.escrows, s.contract_owner⟩,
       [], none⟩

/-- `execute_reveal_secret`: status, then timelock, then authorization,
then the hash commitment. -/
def execute_reveal_secret (s : State) (sender : Addr) (order_id : String)
    (owner : Addr) (secret : List Nat) (now : Nat) : Res :=
  match KVMap.find? s.escrows (order_id, owner) with
  | none => ⟨s, [], some .StdNotFound⟩
  | some escrow =>
    if escrow.status = .Active then
      if now < escrow.timelock then
        if sender = escrow.taker ∨ sender = s.contract_owner then
          if hash_secret secret = escrow.hash then
            ⟨⟨((order_id, owner), { escrow with status := .Completed }) :: s.escrows,
              s.contract_owner⟩,
             [transfer_msg escrow.token escrow.taker escrow.amount], none⟩
          else ⟨s, [], some .HashMismatch⟩
        else ⟨s, [], some .Unauthorized⟩
      else ⟨s, [], some .TimelockExpired⟩
    else ⟨s, [], some .EscrowNotActive⟩

/-- `execute_cancel_escrow`: the contract owner may cancel at any time;
the escrow owner must wait for the timelock. -/
def execute_cancel_escrow (s : State) (sender : Addr) (order_id : String)
    (owner : Addr) (now : Nat) : Res :=
  match KVMap.find? s.escrows (order_id, owner) with
  | none => ⟨s, [], some .StdNotFound⟩
  | some escrow =>
    if escrow.status = .Active then
      if sender = escrow.owner ∨ sender = s.contract_owner then
        if sender = escrow.owner ∧ now < escrow.timelock then
          ⟨s, [], some .TimelockNotExpired⟩
        else
          ⟨⟨((order_id, owner), { escrow with status := .Cancelled }) :: s.escrows,
            s.contract_owner⟩,
           [transfer_msg escrow.token escrow.owner escrow.amount], none⟩
      else ⟨s, [], some .Unauthorized⟩
    else ⟨s, [], some .EscrowNotActive⟩

/-- `query_escrow_exists`. -/
def query_escrow_exists (s : State) (order_id : String) (owner : Addr) : Bool :=
  (KVMap.find? s.escrows (order_id, owner)).isSome

/-- `query_get_escrow`: `ESCROWS.load` fails with a not-found `StdError`
for an unknown key. -/
def query_get_escrow (s : State) (order_id : String) (owner : Addr) :
    Except ContractError Escrow :=
  match KVMap.find? s.escrows (order_id, owner) with
  | none => .error .StdNotFound
  | some escrow => .ok escrow

/-- `query_is_escrow_active`: false for an unknown key. -/
def query_is_escrow_active (s : State) (order_id : String) (owner : Addr) : Bool :=
  match KVMap.find? s.escrows (order_id, owner) with
  | some escrow => decide (escrow.status = .Active)
  | none => false

/-- `query_is_timelock_expired`: false for an unknown key. -/
def query_is_timelock_expired (s : State) (order_id : String) (owner : Addr)
    (now : Nat) : Bool :=
  match KVMap.find? s.escrows (order_id, owner) with
  | some escrow => decide (escrow.timelock ≤ now)
  | none => false

/-- One externally callable execute message with its arguments. -/
inductive Op
  | create (sender : Addr) (funds : List (String × Nat)) (order_id : String)
      (hash : List Nat) (taker : Addr) (token : TokenInfo) (amount timelock_duration now : Nat)
  | receive (info_sender receive_sender : Addr) (receive_amount : Nat)
      (parsed_msg : Option CreateEscrowMsg) (now : Nat)
  | reveal (sender : Addr) (order_id : String) (owner : Addr) (secret : List Nat) (now : Nat)
  | cancel (sender : Addr) (order_id : String) (owner : Addr) (now : Nat)

/-- The state reached by one execute message. -/
def applyOp (s : State) : Op → State
  | .create sender funds oid hash taker token amt dur now =>
      (execute_create_escrow s sender funds oid hash taker token amt dur now).state
  | .receive isnd rsnd ramt pmsg now => (execute_receive_cw20 s isnd rsnd ramt pmsg now).state
  | .reveal sender oid ow secret now => (execute_reveal_secret s sender oid ow secret now).state
  | .cancel sender oid ow now => (execute_cancel_escrow s sender oid ow now).state

/-- The state reached by a sequence of execute messages. -/
def run (s : State) : List Op → State
  | [] => s
  | op :: ops => run (applyOp s op) ops

end Cosmos

/-! ## NEAR fungible token contract

Embedding of `src/Protein Swap/Near/Token-Contract/src/lib.rs`
(`UniteToken`), restricted to the balance map and the transfer-and-notify
resolution.  Balances read through `unwrap_or(0)`; `ft_resolve_transfer`
is the callback chained after `ft_on_transfer` in `ft_transfer_call`. -/

namespace Token

abbrev AccountId := String

/-- The `accounts` balance map, first-match lookup, absent means 0. -/
abbrev Accounts := List (AccountId × Nat)

/-- `self.accounts.get(id).unwrap_or(0)`. -/
def getBalance : Accounts → AccountId → Nat
  | [], _ => 0
  | (a, v) :: rest, acct => if a = acct then v else getBalance rest acct

/-- `self.accounts.insert(id, v)`: overwrite under first-match lookup. -/
def setBalance (accounts : Accounts) (acct : AccountId) (v : Nat) : Accounts :=
  (acct, v) :: accounts

/-- The promise result observed by the resolve callback: either the
receiver's `ft_on_transfer` returned a value (deserialized to a `U128`
when possible), or the notification failed. -/
inductive PromiseOutcome
  | successful (unused : Option Nat)
  | failed
deriving DecidableEq

/-- An emitted `ft_transfer` event. -/
structure TransferEvent where
  old_owner_id : AccountId
  new_owner_id : AccountId
  amount : Nat
  memo : Option String
deriving DecidableEq

/-- `ft_resolve_transfer`: clamps the reported unused amount to the
transferred amount, refunds it from receiver to sender only when the
receiver still holds at least that much, and returns the clamped amount. -/
def ft_resolve_transfer (accounts : Accounts) (sender_id receiver_id : AccountId)
    (amount : Nat) (promise : PromiseOutcome) : Accounts × List TransferEvent × Nat :=
  let unused_amount :=
    match promise with
    | .successful (some u) => min amount u
    | .successful none => amount
    | .failed => amount
  if 0 < unused_amount then
    let receiver_balance := getBalance accounts receiver_id
    if unused_amount ≤ receiver_balance then
      let accounts1 := setBalance accounts receiver_id (receiver_balance - unused_amount)
      let sender_balance := getBalance accounts1 sender_id
      let accounts2 := setBalance accounts1 sender_id (sender_balance + unused_amount)
      (accounts2, [⟨receiver_id, sender_id, unused_amount, some "Refund"⟩], unused_amount)
    else (accounts, [], unused_amount)
  else (accounts, [], unused_amount)

end Token

/-! ## Record-preservation lemmas

Every operation in every variant either leaves a stored record untouched
or flips an ACTIVE record to a terminal status; no operation removes a
record.  These lemmas feed the uniqueness and terminal-state claims. -/

theorem near_applyOp_find (c : Near.Contract) (op : Near.Op) (k : String × String)
    (e : Near.Escrow) (h : KVMap.find? c.escrows k = some e) :
    KVMap.find? (Near.applyOp c op).escrows k = some e ∨
    (e.status = .ACTIVE ∧ ∃ s', KVMap.find? (Near.applyOp c op).escrows k =
      some { e with status := s' }) := by
  cases op with
  | create caller oid hash taker tc amt dur now =>
    simp only [Near.applyOp, Near.create_escrow]
    split
    next =>
      split
      next =>
        split
        next =>
          split
          next => exact Or.inl h
          next hns =>
            simp only [KVMap.find?_cons]
            split
            next hk => exact absurd (by rw [hk, h]; rfl) hns
            next => exact Or.inl h
        next => exact Or.inl h
      next => exact Or.inl h
    next => exact Or.inl h
  | reveal caller oid ow secret now =>
    simp only [Near.applyOp, Near.reveal_secret]
    split
    next => exact Or.inl h
    next escrow hfind =>
      split
      next =>
        split
        next hact =>
          split
          next =>
            split
            next =>
              simp only [KVMap.find?_cons]
              split
              next hk =>
                rw [hk] at hfind
                rw [hfind] at h
                injection h with h
                subst h
                exact Or.inr ⟨hact, ⟨.COMPLETED, rfl⟩⟩
              next => exact Or.inl h
            next => exact Or.inl h
          next => exact Or.inl h
        next => exact Or.inl h
      next => exact Or.inl h
  | cancel caller oid ow now =>
    simp only [Near.applyOp, Near.cancel_escrow]
    split
    next => exact Or.inl h
    next escrow hfind =>
      split
      next =>
        split
        next hact =>
          split
          next =>
            simp only [KVMap.find?_cons]
            split
            next hk =>
              rw [hk] at hfind
              rw [hfind] at h
              injection h with h
              subst h
              exact Or.inr ⟨hact, ⟨.CANCELLED, rfl⟩⟩
            next => exact Or.inl h
          next => exact Or.inl h
        next => exact Or.inl h
      next => exact Or.inl h
  | onTransfer s a m => exact Or.inl h

theorem near_run_find (c : Near.Contract) (ops : List Near.Op) (k : String × String)
    (e : Near.Escrow) (h : KVMap.find? c.escrows k = some e) :
    ∃ e', KVMap.find? (Near.run c ops).escrows k = some e' ∧
      (e.status ≠ .ACTIVE → e' = e) := by
  induction ops generalizing c e with
  | nil => exact ⟨e, h, fun _ => rfl⟩
  | cons op ops ih =>
    simp only [Near.run]
    rcases near_applyOp_find c op k e h with h' | ⟨hact, s', h'⟩
    · exact ih _ _ h'
    · obtain ⟨e', hf, _⟩ := ih _ _ h'
      exact ⟨e', hf, fun hne => absurd hact hne⟩

theorem stellar_applyOp_find (st : Stellar.Store) (op : Stellar.Op) (k : String × String)
    (e : Stellar.Escrow) (h : KVMap.find? st k = some e) :
    KVMap.find? (Stellar.applyOp st op) k = some e ∨
    (e.status = .Active ∧ ∃ s', KVMap.find? (Stellar.applyOp st op) k =
      some { e with status := s' }) := by
  cases op with
  | create ow oid hash taker tc amt dur now =>
    simp only [Stellar.applyOp, Stellar.create_escrow]
    split
    next => exact Or.inl h
    next =>
      split
      next => exact Or.inl h
      next hns =>
        simp only [KVMap.find?_cons]
        split
        next hk => exact absurd (by rw [hk, h]; rfl) hns
        next => exact Or.inl h
  | reveal caller oid ow secret now =>
    simp only [Stellar.applyOp, Stellar.reveal_secret]
    split
    next => exact Or.inl h
    next escrow hfind =>
      split
      next hact =>
        split
        next =>
          split
          next =>
            split
            next =>
              simp only [KVMap.find?_cons]
              split
              next hk =>
                rw [hk] at hfind
                rw [hfind] at h
                injection h with h
                subst h
                exact Or.inr ⟨hact, ⟨.Completed, rfl⟩⟩
              next => exact Or.inl h
            next => exact Or.inl h
          next => exact Or.inl h
        next => exact Or.inl h
      next => exact Or.inl h
  | cancel caller oid ow now =>
    simp only [Stellar.applyOp, Stellar.cancel_escrow]
    split
    next => exact Or.inl h
    next escrow hfind =>
      split
      next hact =>
        split
        next =>
          split
          next => exact Or.inl h
          next =>
            simp only [KVMap.find?_cons]
            split
            next hk =>
              rw [hk] at hfind
              rw [hfind] at h
              injection h with h
              subst h
              exact Or.inr ⟨hact, ⟨.Cancelled, rfl⟩⟩
            next => exact Or.inl h
        next => exact Or.inl h
      next => exact Or.inl h

theorem stellar_run_find (st : Stellar.Store) (ops : List Stellar.Op) (k : String × String)
    (e : Stellar.Escrow) (h : KVMap.find? st k = some e) :
    ∃ e', KVMap.find? (Stellar.run st ops) k = some e' ∧
      (e.status ≠ .Active → e' = e) := by
  induction ops generalizing st e with
  | nil => exact ⟨e, h, fun _ => rfl⟩
  | cons op ops ih =>
    simp only [Stellar.run]
    rcases stellar_applyOp_find st op k e h with h' | ⟨hact, s', h'⟩
    · exact ih _ _ h'
    · obtain ⟨e', hf, _⟩ := ih _ _ h'
      exact ⟨e', hf, fun hne => absurd hact hne⟩

theorem cosmos_applyOp_find (s : Cosmos.State) (op : Cosmos.Op) (k : String × String)
    (e : Cosmos.Escrow) (h : KVMap.find? s.escrows k = some e) :
    KVMap.find? (Cosmos.applyOp s op).escrows k = some e ∨
    (e.status = .Active ∧ ∃ s', KVMap.find? (Cosmos.applyOp s op).escrows k =
      some { e with status := s' }) := by
  cases op with
  | create sender funds oid hash taker token amt dur now =>
    simp only [Cosmos.applyOp, Cosmos.execute_create_escrow]
    split
    next => exact Or.inl h
    next =>
      split
      next => exact Or.inl h
      next =>
        split
        next => exact Or.inl h
        next hns =>
          split
          next =>
            split
            next =>
              simp only [KVMap.find?_cons]
              split
              next hk => exact absurd (by rw [hk, h]; rfl) hns
              next => exact Or.inl h
            next => exact Or.inl h
          next => exact Or.inl h
  | receive isnd rsnd ramt pmsg now =>
    simp only [Cosmos.applyOp, Cosmos.execute_receive_cw20]
    split
    next => exact Or.inl h
    next cmsg =>
      split
      next => exact Or.inl h
      next =>
        split
        next => exact Or.inl h
        next =>
          split
          next => exact Or.inl h
          next hns =>
            simp only [KVMap.find?_cons]
            split
            next hk => exact absurd (by rw [hk, h]; rfl) hns
            next => exact Or.inl h
  | reveal sender oid ow secret now =>
    simp only [Cosmos.applyOp, Cosmos.execute_reveal_secret]
    split
    next => exact Or.inl h
    next escrow hfind =>
      split
      next hact =>
        split
        next =>
          split
          next =>
            split
            next =>
              simp only [KVMap.find?_cons]
              split
              next hk =>
                rw [hk] at hfind
                rw [hfind] at h
                injection h with h
                subst h
                exact Or.inr ⟨hact, ⟨.Completed, rfl⟩⟩
              next => exact Or.inl h
            next => exact Or.inl h
          next => exact Or.inl h
        next => exact Or.inl h
      next => exact Or.inl h
  | cancel sender oid ow now =>
    simp only [Cosmos.applyOp, Cosmos.execute_cancel_escrow]
    split
    next => exact Or.inl h
    next escrow hfind =>
      split
      next hact =>
        split
        next =>
          split
          next => exact Or.inl h
          next =>
            simp only [KVMap.find?_cons]
            split
            next hk =>
              rw [hk] at hfind
              rw [hfind] at h
              injection h with h
              subst h
              exact Or.inr ⟨hact, ⟨.Cancelled, rfl⟩⟩
            next => exact Or.inl h
        next => exact Or.inl h
      next => exact Or.inl h

theorem cosmos_run_find (s : Cosmos.State) (ops : List Cosmos.Op) (k : String × String)
    (e : Cosmos.Escrow) (h : KVMap.find? s.escrows k = some e) :
    ∃ e', KVMap.find? (Cosmos.run s ops).escrows k = some e' ∧
      (e.status ≠ .Active → e' = e) := by
  induction ops generalizing s e with
  | nil => exact ⟨e, h, fun _ => rfl⟩
  | cons op ops ih =>
    simp only [Cosmos.run]
    rcases cosmos_applyOp_find s op k e h with h' | ⟨hact, s', h'⟩
    · exact ih _ _ h'
    · obtain ⟨e', hf, _⟩ := ih _ _ h'
      exact ⟨e', hf, fun hne => absurd hact hne⟩

/-! ## Creation against an existing key -/

theorem near_create_on_present (c : Near.Contract) (caller oid : String)
    (hash : List Nat) (taker tc : Near.AccountId) (amt dur now : Nat)
    (h : (KVMap.find? c.escrows (oid, caller)).isSome) :
    (Near.create_escrow c caller oid hash taker tc amt dur now).err.isSome ∧
    (Near.create_escrow c caller oid hash taker tc amt dur now).state = c ∧
    (0 < amt → hash.length = 32 → 0 < dur →
      (Near.create_escrow c caller oid hash taker tc amt dur now).err =
        some .alreadyExists) := by
  unfold Near.create_escrow
  repeat' split
  all_goals simp_all

theorem stellar_create_on_present (st : Stellar.Store) (ow oid : String)
    (hash : List Nat) (taker tc : Stellar.Address) (amt : Int) (dur now : Nat)
    (h : (KVMap.find? st (oid, ow)).isSome) :
    (Stellar.create_escrow st ow oid hash taker tc amt dur now).err.isSome ∧
    (Stellar.create_escrow st ow oid hash taker tc amt dur now).store = st ∧
    (amt ≠ 0 →
      (Stellar.create_escrow st ow oid hash taker tc amt dur now).err =
        some .EscrowAlreadyExists) := by
  unfold Stellar.create_escrow
  repeat' split
  all_goals simp_all

theorem cosmos_create_on_present (s : Cosmos.State) (sender : Cosmos.Addr)
    (funds : List (String × Nat)) (oid : String) (hash : List Nat)
    (taker : Cosmos.Addr) (token : Cosmos.TokenInfo) (amt dur now : Nat)
    (h : (KVMap.find? s.escrows (oid, sender)).isSome) :
    (Cosmos.execute_create_escrow s sender funds oid hash taker token amt dur now).err.isSome ∧
    (Cosmos.execute_create_escrow s sender funds oid hash taker token amt dur now).state = s ∧
    (amt ≠ 0 → hash ≠ [] →
      (Cosmos.execute_create_escrow s sender funds oid hash taker token amt dur now).err =
        some .EscrowAlreadyExists) := by
  unfold Cosmos.execute_create_escrow
  repeat' split
  all_goals simp_all

/-! ## Claims -/

/-! ## Concrete fixtures

Small concrete states used by counterexamples and witnesses. -/

/-- An ACTIVE NEAR escrow: owner "alice", taker "bob", timelock 100. -/
def nearE : Near.Escrow :=
  ⟨"ord-1", List.replicate 32 1, "alice", "bob", "tok", 1000, 100, .ACTIVE, 0⟩

/-- A NEAR contract state holding `nearE`, with contract owner "admin". -/
def nearC : Near.Contract := ⟨[(("ord-1", "alice"), nearE)], "admin", 1⟩

/-- An ACTIVE Soroban escrow: owner "alice", taker "bob", timelock 100. -/
def stellarE : Stellar.Escrow :=
  ⟨"ord-1", List.replicate 32 1, "alice", "bob", "tok", 1000, 100, .Active, 0⟩

/-- A Soroban store holding `stellarE`. -/
def stellarSt : Stellar.Store := [(("ord-1", "alice"), stellarE)]

/-- An ACTIVE CosmWasm escrow: owner "alice", taker "bob", timelock 100. -/
def cosmosE : Cosmos.Escrow :=
  ⟨"ord-1", List.replicate 32 1, "alice", "bob", .Native "uatom", 1000, 100, .Active, 0⟩

/-- A CosmWasm state holding `cosmosE`, with contract owner "admin". -/
def cosmosS : Cosmos.State := ⟨[(("ord-1", "alice"), cosmosE)], "admin"⟩

/-- C1 counterexample: in the NEAR variant the contract-level administrator
("admin", distinct from the escrow owner) cannot cancel an ACTIVE escrow
before the timelock: at now = 50 < timelock = 100 the call fails with
the timelock-not-expired error instead of succeeding. -/
theorem C1_admin_cancel_counterexample :
    (Near.cancel_escrow nearC "admin" "ord-1" "alice" 50).err =
      some .timelockNotExpired ∧
    (Near.cancel_escrow nearC "admin" "ord-1" "alice" 50).state = nearC := by decide

/-- C1 (amended): only the CosmWasm variant lets the contract-level
administrator cancel an ACTIVE escrow at any time (provided the admin is
not the escrow's owner, since the owner-branch timelock test keys on the
sender); in the NEAR and Soroban variants a cancel at now < timelock never
succeeds, whoever calls. -/
theorem C1_admin_cancel_timelock :
    (∀ (s : Cosmos.State) (oid : String) (ow : Cosmos.Addr) (e : Cosmos.Escrow) (now : Nat),
      KVMap.find? s.escrows (oid, ow) = some e →
      e.status = .Active →
      s.contract_owner ≠ e.owner →
      (Cosmos.execute_cancel_escrow s s.contract_owner oid ow now).err = none ∧
      KVMap.find? (Cosmos.execute_cancel_escrow s s.contract_owner oid ow now).state.escrows
        (oid, ow) = some { e with status := .Cancelled }) ∧
    (∀ (c : Near.Contract) (caller oid : String) (ow : Near.AccountId) (e : Near.Escrow)
      (now : Nat), KVMap.find? c.escrows (oid, ow) = some e → now < e.timelock →
      (Near.cancel_escrow c caller oid ow now).err.isSome) ∧
    (∀ (st : Stellar.Store) (caller oid : String) (ow : Stellar.Address) (e : Stellar.Escrow)
      (now : Nat), KVMap.find? st (oid, ow) = some e → now < e.timelock →
      (Stellar.cancel_escrow st caller oid ow now).err.isSome) := by
  refine ⟨?_, ?_, ?_⟩
  · intro s oid ow e now hfind hact hown
    unfold Cosmos.execute_cancel_escrow
    rw [hfind]
    repeat' split
    all_goals simp_all
  · intro c caller oid ow e now hfind hlt
    unfold Near.cancel_escrow
    rw [hfind]
    repeat' split
    all_goals simp_all
    omega
  · intro st caller oid ow e now hfind hlt
    unfold Stellar.cancel_escrow
    rw [hfind]
    repeat' split
    all_goals simp_all
    all_goals omega

/-- C1 witness: the amended statement at concrete inputs — the CosmWasm
admin cancel succeeds at now = 50 < timelock = 100, while the NEAR and
Soroban cancels fail at the same instant. -/
theorem C1_admin_cancel_timelock_witness :
    (Cosmos.execute_cancel_escrow cosmosS "admin" "ord-1" "alice" 50).err = none ∧
    (Near.cancel_escrow nearC "admin" "ord-1" "alice" 50).err.isSome ∧
    (Stellar.cancel_escrow stellarSt Stellar.contract_deployer "ord-1" "alice" 50).err.isSome :=
  ⟨(C1_admin_cancel_timelock.1 cosmosS "ord-1" "alice" cosmosE 50 (by decide) (by decide)
      (by decide)).1,
   C1_admin_cancel_timelock.2.1 nearC "admin" "ord-1" "alice" nearE 50 (by decide) (by decide),
   C1_admin_cancel_timelock.2.2 stellarSt Stellar.contract_deployer "ord-1" "alice" stellarE 50
     (by decide) (by decide)⟩

/-- C2: the NEAR deposit-then-notify handler applies no creation validation
at all: for every contract state and every inbound notification — the
zero-amount one at `nearC` included — `ft_on_transfer` returns 0 ("accept
all tokens"), rejects nothing and creates no escrow record. -/
theorem C2_near_notify_no_validation :
    Near.ft_on_transfer nearC "alice" 0 "" = (nearC, 0) ∧
    ∀ (c : Near.Contract) (sender : Near.AccountId) (amount : Nat) (msg : String),
      Near.ft_on_transfer c sender amount msg = (c, 0) :=
  ⟨rfl, fun _ _ _ _ => rfl⟩

/-- C3 counterexample: the Soroban `create_escrow` accepts a negative
amount, an empty hash and a zero timelock duration in one call — on the
empty store it succeeds and persists the record instead of failing with
`InvalidAmount` / `InvalidHash` / `InvalidTimelock`. -/
theorem C3_create_validation_counterexample :
    (Stellar.create_escrow [] "alice" "ord-1" [] "bob" "tok" (-5) 0 7).err = none ∧
    (Stellar.create_escrow [] "alice" "ord-1" [] "bob" "tok" (-5) 0 7).store =
      [(("ord-1", "alice"), ⟨"ord-1", [], "alice", "bob", "tok", -5, 7, .Active, 7⟩)] := by
  decide

/-- C3 (amended): the NEAR `create_escrow` enforces all three input checks
(`amount > 0`, 32-byte hash, nonzero duration) with the matching error and
an unchanged store; the CosmWasm variant rejects only a zero amount
(`InvalidAmount`) and an empty hash (a generic error); the Soroban variant
rejects only `amount == 0` and otherwise accepts any amount (negative
included), any hash length and a zero duration. -/
theorem C3_create_validation :
    (∀ (c : Near.Contract) (caller oid : String) (hash : List Nat)
      (taker tc : Near.AccountId) (dur now : Nat),
      Near.create_escrow c caller oid hash taker tc 0 dur now = ⟨c, [], some .invalidAmount⟩) ∧
    (∀ (c : Near.Contract) (caller oid : String) (hash : List Nat)
      (taker tc : Near.AccountId) (amt dur now : Nat), 0 < amt → hash.length ≠ 32 →
      Near.create_escrow c caller oid hash taker tc amt dur now = ⟨c, [], some .invalidHash⟩) ∧
    (∀ (c : Near.Contract) (caller oid : String) (hash : List Nat)
      (taker tc : Near.AccountId) (amt now : Nat), 0 < amt → hash.length = 32 →
      Near.create_escrow c caller oid hash taker tc amt 0 now = ⟨c, [], some .invalidTimelock⟩) ∧
    (∀ (s : Cosmos.State) (sender : Cosmos.Addr) (funds : List (String × Nat)) (oid : String)
      (hash : List Nat) (taker : Cosmos.Addr) (token : Cosmos.TokenInfo) (dur now : Nat),
      Cosmos.execute_create_escrow s sender funds oid hash taker token 0 dur now =
        ⟨s, [], some .InvalidAmount⟩) ∧
    (∀ (s : Cosmos.State) (sender : Cosmos.Addr) (funds : List (String × Nat)) (oid : String)
      (taker : Cosmos.Addr) (token : Cosmos.TokenInfo) (amt dur now : Nat), amt ≠ 0 →
      Cosmos.execute_create_escrow s sender funds oid [] taker token amt dur now =
        ⟨s, [], some (.Std "Hash cannot be empty")⟩) ∧
    (∀ (st : Stellar.Store) (ow oid : String) (hash : List Nat) (taker tc : Stellar.Address)
      (dur now : Nat),
      Stellar.create_escrow st ow oid hash taker tc 0 dur now = ⟨st, [], some .InvalidAmount⟩) ∧
    (∀ (st : Stellar.Store) (ow oid : String) (hash : List Nat) (taker tc : Stellar.Address)
      (amt : Int) (dur now : Nat), amt ≠ 0 → KVMap.find? st (oid, ow) = none →
      (Stellar.create_escrow st ow oid hash taker tc amt dur now).err = none) := by
  refine ⟨?_, ?_, ?_, ?_, ?_, ?_, ?_⟩
  · intro c caller oid hash taker tc dur now
    simp [Near.create_escrow]
  · intro c caller oid hash taker tc amt dur now h1 h2
    simp [Near.create_escrow, h1, h2]
  · intro c caller oid hash taker tc amt now h1 h2
    simp [Near.create_escrow, h1, h2]
  · intro s sender funds oid hash taker token dur now
    simp [Cosmos.execute_create_escrow]
  · intro s sender funds oid taker token amt dur now h1
    simp [Cosmos.execute_create_escrow, h1]
  · intro st ow oid hash taker tc dur now
    simp [Stellar.create_escrow]
  · intro st ow oid hash taker tc amt dur now h1 h2
    simp [Stellar.create_escrow, h1, h2]

/-- C3 witness: the amended statement at concrete inputs, one per check. -/
theorem C3_create_validation_witness :
    Near.create_escrow nearC "alice" "ord-9" (List.replicate 32 2) "bob" "tok" 0 60 5 =
      ⟨nearC, [], some .invalidAmount⟩ ∧
    Near.create_escrow nearC "alice" "ord-9" [1, 2] "bob" "tok" 7 60 5 =
      ⟨nearC, [], some .invalidHash⟩ ∧
    Near.create_escrow nearC "alice" "ord-9" (List.replicate 32 2) "bob" "tok" 7 0 5 =
      ⟨nearC, [], some .invalidTimelock⟩ ∧
    Cosmos.execute_create_escrow cosmosS "alice" [] "ord-9" [1] "bob" (.Native "uatom") 0 60 5 =
      ⟨cosmosS, [], some .InvalidAmount⟩ ∧
    Cosmos.execute_create_escrow cosmosS "alice" [] "ord-9" [] "bob" (.Native "uatom") 7 60 5 =
      ⟨cosmosS, [], some (.Std "Hash cannot be empty")⟩ ∧
    Stellar.create_escrow stellarSt "alice" "ord-9" [1] "bob" "tok" 0 60 5 =
      ⟨stellarSt, [], some .InvalidAmount⟩ ∧
    (Stellar.create_escrow [] "alice" "ord-9" [1] "bob" "tok" (-3) 0 5).err = none :=
  ⟨C3_create_validation.1 nearC "alice" "ord-9" (List.replicate 32 2) "bob" "tok" 60 5,
   C3_create_validation.2.1 nearC "alice" "ord-9" [1, 2] "bob" "tok" 7 60 5 (by decide) (by decide),
   C3_create_validation.2.2.1 nearC "alice" "ord-9" (List.replicate 32 2) "bob" "tok" 7 5
     (by decide) (by decide),
   C3_create_validation.2.2.2.1 cosmosS "alice" [] "ord-9" [1] "bob" (.Native "uatom") 60 5,
   C3_create_validation.2.2.2.2.1 cosmosS "alice" [] "ord-9" "bob" (.Native "uatom") 7 60 5
     (by decide),
   C3_create_validation.2.2.2.2.2.1 stellarSt "alice" "ord-9" [1] "bob" "tok" 60 5,
   C3_create_validation.2.2.2.2.2.2 [] "alice" "ord-9" [1] "bob" "tok" (-3) 0 5 (by decide)
     (by decide)⟩

theorem near_create_success_stores (c : Near.Contract) (caller oid : String)
    (hash : List Nat) (taker tc : Near.AccountId) (amt dur now : Nat)
    (h : (Near.create_escrow c caller oid hash taker tc amt dur now).err = none) :
    (KVMap.find? (Near.create_escrow c caller oid hash taker tc amt dur now).state.escrows
      (oid, caller)).isSome := by
  unfold Near.create_escrow at h ⊢
  repeat' split at h
  all_goals simp_all

theorem stellar_create_success_stores (st : Stellar.Store) (ow oid : String)
    (hash : List Nat) (taker tc : Stellar.Address) (amt : Int) (dur now : Nat)
    (h : (Stellar.create_escrow st ow oid hash taker tc amt dur now).err = none) :
    (KVMap.find? (Stellar.create_escrow st ow oid hash taker tc amt dur now).store
      (oid, ow)).isSome := by
  unfold Stellar.create_escrow at h ⊢
  repeat' split at h
  all_goals simp_all

theorem cosmos_create_success_stores (s : Cosmos.State) (sender : Cosmos.Addr)
    (funds : List (String × Nat)) (oid : String) (hash : List Nat)
    (taker : Cosmos.Addr) (token : Cosmos.TokenInfo) (amt dur now : Nat)
    (h : (Cosmos.execute_create_escrow s sender funds oid hash taker token amt dur now).err
      = none) :
    (KVMap.find?
      (Cosmos.execute_create_escrow s sender funds oid hash taker token amt dur now).state.escrows
      (oid, sender)).isSome := by
  unfold Cosmos.execute_create_escrow at h ⊢
  repeat' split at h
  all_goals try simp_all
  all_goals try split
  all_goals simp_all

/-- C4 counterexample: after a successful NEAR create for
`("ord-1", "alice")`, a second create for the same pair with amount 0
fails with `invalidAmount`, not `alreadyExists` (the input checks run
before the existence check in all three variants). -/
theorem C4_uniqueness_counterexample :
    (Near.create_escrow ⟨[], "admin", 0⟩ "alice" "ord-1" (List.replicate 32 1) "bob" "tok"
      1000 100 0).err = none ∧
    (Near.create_escrow
      (Near.create_escrow ⟨[], "admin", 0⟩ "alice" "ord-1" (List.replicate 32 1) "bob" "tok"
        1000 100 0).state
      "alice" "ord-1" (List.replicate 32 1) "bob" "tok" 0 100 5).err =
      some .invalidAmount := by decide

/-- C4 (amended): in every variant, after one successful create for
`(order_id, owner)` every subsequent create for the same pair — after any
interleaved sequence of operations, since no operation deletes a record —
fails and leaves the state unchanged; the error is `AlreadyExists`
whenever the per-input validation passes, and the corresponding
input-validation error otherwise. -/
theorem C4_uniqueness :
    (∀ (c : Near.Contract) (caller oid : String) (hash : List Nat)
      (taker tc : Near.AccountId) (amt dur now : Nat) (ops : List Near.Op)
      (hash2 : List Nat) (taker2 tc2 : Near.AccountId) (amt2 dur2 now2 : Nat),
      (Near.create_escrow c caller oid hash taker tc amt dur now).err = none →
      (Near.create_escrow
          (Near.run (Near.create_escrow c caller oid hash taker tc amt dur now).state ops)
          caller oid hash2 taker2 tc2 amt2 dur2 now2).err.isSome ∧
      (Near.create_escrow
          (Near.run (Near.create_escrow c caller oid hash taker tc amt dur now).state ops)
          caller oid hash2 taker2 tc2 amt2 dur2 now2).state =
        Near.run (Near.create_escrow c caller oid hash taker tc amt dur now).state ops ∧
      (0 < amt2 → hash2.length = 32 → 0 < dur2 →
        (Near.create_escrow
            (Near.run (Near.create_escrow c caller oid hash taker tc amt dur now).state ops)
            caller oid hash2 taker2 tc2 amt2 dur2 now2).err = some .alreadyExists)) ∧
    (∀ (st : Stellar.Store) (ow oid : String) (hash : List Nat) (taker tc : Stellar.Address)
      (amt : Int) (dur now : Nat) (ops : List Stellar.Op) (hash2 : List Nat)
      (taker2 tc2 : Stellar.Address) (amt2 : Int) (dur2 now2 : Nat),
      (Stellar.create_escrow st ow oid hash taker tc amt dur now).err = none →
      (Stellar.create_escrow
          (Stellar.run (Stellar.create_escrow st ow oid hash taker tc amt dur now).store ops)
          ow oid hash2 taker2 tc2 amt2 dur2 now2).err.isSome ∧
      (Stellar.create_escrow
          (Stellar.run (Stellar.create_escrow st ow oid hash taker tc amt dur now).store ops)
          ow oid hash2 taker2 tc2 amt2 dur2 now2).store =
        Stellar.run (Stellar.create_escrow st ow oid hash taker tc amt dur now).store ops ∧
      (amt2 ≠ 0 →
        (Stellar.create_escrow
            (Stellar.run (Stellar.create_escrow st ow oid hash taker tc amt dur now).store ops)
            ow oid hash2 taker2 tc2 amt2 dur2 now2).err = some .EscrowAlreadyExists)) ∧
    (∀ (s : Cosmos.State) (sender : Cosmos.Addr) (funds : List (String × Nat)) (oid : String)
      (hash : List Nat) (taker : Cosmos.Addr) (token : Cosmos.TokenInfo) (amt dur now : Nat)
      (ops : List Cosmos.Op) (funds2 : List (String × Nat)) (hash2 : List Nat)
      (taker2 : Cosmos.Addr) (token2 : Cosmos.TokenInfo) (amt2 dur2 now2 : Nat),
      (Cosmos.execute_create_escrow s sender funds oid hash taker token amt dur now).err
        = none →
      (Cosmos.execute_create_escrow
          (Cosmos.run
            (Cosmos.execute_create_escrow s sender funds oid hash taker token amt dur now).state
            ops)
          sender funds2 oid hash2 taker2 token2 amt2 dur2 now2).err.isSome ∧
      (Cosmos.execute_create_escrow
          (Cosmos.run
            (Cosmos.execute_create_escrow s sender funds oid hash taker token amt dur now).state
            ops)
          sender funds2 oid hash2 taker2 token2 amt2 dur2 now2).state =
        Cosmos.run
          (Cosmos.execute_create_escrow s sender funds oid hash taker token amt dur now).state
          ops ∧
      (amt2 ≠ 0 → hash2 ≠ [] →
        (Cosmos.execute_create_escrow
            (Cosmos.run
              (Cosmos.execute_create_escrow s sender funds oid hash taker token amt dur now).state
              ops)
            sender funds2 oid hash2 taker2 token2 amt2 dur2 now2).err =
          some .EscrowAlreadyExists)) := by
  refine ⟨?_, ?_, ?_⟩
  · intro c caller oid hash taker tc amt dur now ops hash2 taker2 tc2 amt2 dur2 now2 hsucc
    obtain ⟨e1, he1⟩ := Option.isSome_iff_exists.mp
      (near_create_success_stores c caller oid hash taker tc amt dur now hsucc)
    obtain ⟨e2, he2, -⟩ := near_run_find _ ops (oid, caller) e1 he1
    exact near_create_on_present _ caller oid hash2 taker2 tc2 amt2 dur2 now2
      (by rw [he2]; rfl)
  · intro st ow oid hash taker tc amt dur now ops hash2 taker2 tc2 amt2 dur2 now2 hsucc
    obtain ⟨e1, he1⟩ := Option.isSome_iff_exists.mp
      (stellar_create_success_stores st ow oid hash taker tc amt dur now hsucc)
    obtain ⟨e2, he2, -⟩ := stellar_run_find _ ops (oid, ow) e1 he1
    exact stellar_create_on_present _ ow oid hash2 taker2 tc2 amt2 dur2 now2
      (by rw [he2]; rfl)
  · intro s sender funds oid hash taker token amt dur now ops funds2 hash2 taker2 token2
      amt2 dur2 now2 hsucc
    obtain ⟨e1, he1⟩ := Option.isSome_iff_exists.mp
      (cosmos_create_success_stores s sender funds oid hash taker token amt dur now hsucc)
    obtain ⟨e2, he2, -⟩ := cosmos_run_find _ ops (oid, sender) e1 he1
    exact cosmos_create_on_present _ sender funds2 oid hash2 taker2 token2 amt2 dur2 now2
      (by rw [he2]; rfl)

/-- C4 witness: the amended statement at concrete inputs — after the
successful create of `nearE`-like records, a duplicate create (valid
inputs, empty interleaving) fails with the already-exists error in each
variant. -/
theorem C4_uniqueness_witness :
    (Near.create_escrow
      (Near.create_escrow ⟨[], "admin", 0⟩ "alice" "ord-1" (List.replicate 32 1) "bob" "tok"
        1000 100 0).state
      "alice" "ord-1" (List.replicate 32 1) "bob" "tok" 5 100 5).err = some .alreadyExists ∧
    (Stellar.create_escrow
      (Stellar.create_escrow [] "alice" "ord-1" (List.replicate 32 1) "bob" "tok" 9 100 0).store
      "alice" "ord-1" (List.replicate 32 1) "bob" "tok" 9 100 5).err =
      some .EscrowAlreadyExists ∧
    (Cosmos.execute_create_escrow
      (Cosmos.execute_create_escrow ⟨[], "admin"⟩ "alice" [("uatom", 9)] "ord-1" [1] "bob"
        (.Native "uatom") 9 100 0).state
      "alice" [("uatom", 9)] "ord-1" [1] "bob" (.Native "uatom") 9 100 5).err =
      some .EscrowAlreadyExists :=
  ⟨(C4_uniqueness.1 ⟨[], "admin", 0⟩ "alice" "ord-1" (List.replicate 32 1) "bob" "tok"
      1000 100 0 [] (List.replicate 32 1) "bob" "tok" 5 100 5 (by decide)).2.2
      (by decide) (by decide) (by decide),
   (C4_uniqueness.2.1 [] "alice" "ord-1" (List.replicate 32 1) "bob" "tok" 9 100 0 []
      (List.replicate 32 1) "bob" "tok" 9 100 5 (by decide)).2.2 (by decide),
   (C4_uniqueness.2.2 ⟨[], "admin"⟩ "alice" [("uatom", 9)] "ord-1" [1] "bob" (.Native "uatom")
      9 100 0 [] [("uatom", 9)] [1] "bob" (.Native "uatom") 9 100 5 (by decide)).2.2
      (by decide) (by decide)⟩

/-- C5: in all three variants, for an existing record `reveal` succeeds
iff the record is ACTIVE, the timelock has not expired, the SHA-256 of
the secret equals the stored hash, and the caller is the record's taker
or the contract-level admin (NEAR and CosmWasm: the stored contract
owner; Soroban: the hard-coded deployer); when exactly one conjunct
fails, the call fails with the matching error kind, and with the
not-found kind when no record exists. -/
theorem C5_reveal_correctness :
    (∀ (c : Near.Contract) (caller oid : String) (ow : Near.AccountId) (e : Near.Escrow) (secret : List Nat) (now : Nat),
      KVMap.find? c.escrows (oid, ow) = some e →
      ((Near.reveal_secret c caller oid ow secret now).err = none ↔
        (e.status = .ACTIVE ∧ now < e.timelock ∧ Sha256.sha256 secret = e.hash ∧
         (caller = e.taker ∨ caller = c.owner)))) ∧
    (∀ (c : Near.Contract) (caller oid : String) (ow : Near.AccountId) (secret : List Nat) (now : Nat),
      KVMap.find? c.escrows (oid, ow) = none →
      (Near.reveal_secret c caller oid ow secret now).err = some .notFound) ∧
    (∀ (c : Near.Contract) (caller oid : String) (ow : Near.AccountId) (e : Near.Escrow) (secret : List Nat) (now : Nat),
      KVMap.find? c.escrows (oid, ow) = some e →
      e.status ≠ .ACTIVE → now < e.timelock →
      Sha256.sha256 secret = e.hash → (caller = e.taker ∨ caller = c.owner) →
      (Near.reveal_secret c caller oid ow secret now).err = some .notActive) ∧
    (∀ (c : Near.Contract) (caller oid : String) (ow : Near.AccountId) (e : Near.Escrow) (secret : List Nat) (now : Nat),
      KVMap.find? c.escrows (oid, ow) = some e →
      e.status = .ACTIVE → e.timelock ≤ now →
      Sha256.sha256 secret = e.hash → (caller = e.taker ∨ caller = c.owner) →
      (Near.reveal_secret c caller oid ow secret now).err = some .timelockExpired) ∧
    (∀ (c : Near.Contract) (caller oid : String) (ow : Near.AccountId) (e : Near.Escrow) (secret : List Nat) (now : Nat),
      KVMap.find? c.escrows (oid, ow) = some e →
      e.status = .ACTIVE → now < e.timelock →
      Sha256.sha256 secret ≠ e.hash → (caller = e.taker ∨ caller = c.owner) →
      (Near.reveal_secret c caller oid ow secret now).err = some .hashMismatch) ∧
    (∀ (c : Near.Contract) (caller oid : String) (ow : Near.AccountId) (e : Near.Escrow) (secret : List Nat) (now : Nat),
      KVMap.find? c.escrows (oid, ow) = some e →
      e.status = .ACTIVE → now < e.timelock →
      Sha256.sha256 secret = e.hash → ¬(caller = e.taker ∨ caller = c.owner) →
      (Near.reveal_secret c caller oid ow secret now).err = some .unauthorized) ∧
    (∀ (st : Stellar.Store) (caller oid : String) (ow : Stellar.Address) (e : Stellar.Escrow) (secret : List Nat) (now : Nat),
      KVMap.find? st (oid, ow) = some e →
      ((Stellar.reveal_secret st caller oid ow secret now).err = none ↔
        (e.status = .Active ∧ now < e.timelock ∧ Sha256.sha256 secret = e.hash ∧
         (caller = e.taker ∨ caller = Stellar.contract_deployer)))) ∧
    (∀ (st : Stellar.Store) (caller oid : String) (ow : Stellar.Address) (secret : List Nat) (now : Nat),
      KVMap.find? st (oid, ow) = none →
      (Stellar.reveal_secret st caller oid ow secret now).err = some .EscrowNotFound) ∧
    (∀ (st : Stellar.Store) (caller oid : String) (ow : Stellar.Address) (e : Stellar.Escrow) (secret : List Nat) (now : Nat),
      KVMap.find? st (oid, ow) = some e →
      e.status ≠ .Active → now < e.timelock →
      Sha256.sha256 secret = e.hash → (caller = e.taker ∨ caller = Stellar.contract_deployer) →
      (Stellar.reveal_secret st caller oid ow secret now).err = some .EscrowNotActive) ∧
    (∀ (st : Stellar.Store) (caller oid : String) (ow : Stellar.Address) (e : Stellar.Escrow) (secret : List Nat) (now : Nat),
      KVMap.find? st (oid, ow) = some e →
      e.status = .Active → e.timelock ≤ now →
      Sha256.sha256 secret = e.hash → (caller = e.taker ∨ caller = Stellar.contract_deployer) →
      (Stellar.reveal_secret st caller oid ow secret now).err = some .TimelockExpired) ∧
    (∀ (st : Stellar.Store) (caller oid : String) (ow : Stellar.Address) (e : Stellar.Escrow) (secret : List Nat) (now : Nat),
      KVMap.find? st (oid, ow) = some e →
      e.status = .Active → now < e.timelock →
      Sha256.sha256 secret ≠ e.hash → (caller = e.taker ∨ caller = Stellar.contract_deployer) →
      (Stellar.reveal_secret st caller oid ow secret now).err = some .HashMismatch) ∧
    (∀ (st : Stellar.Store) (caller oid : String) (ow : Stellar.Address) (e : Stellar.Escrow) (secret : List Nat) (now : Nat),
      KVMap.find? st (oid, ow) = some e →
      e.status = .Active → now < e.timelock →
      Sha256.sha256 secret = e.hash → ¬(caller = e.taker ∨ caller = Stellar.contract_deployer) →
      (Stellar.reveal_secret st caller oid ow secret now).err = some .NotAuthorized) ∧
    (∀ (s : Cosmos.State) (caller oid : String) (ow : Cosmos.Addr) (e : Cosmos.Escrow) (secret : List Nat) (now : Nat),
      KVMap.find? s.escrows (oid, ow) = some e →
      ((Cosmos.execute_reveal_secret s caller oid ow secret now).err = none ↔
        (e.status = .Active ∧ now < e.timelock ∧ Sha256.sha256 secret = e.hash ∧
         (caller = e.taker ∨ caller = s.contract_owner)))) ∧
    (∀ (s : Cosmos.State) (caller oid : String) (ow : Cosmos.Addr) (secret : List Nat) (now : Nat),
      KVMap.find? s.escrows (oid, ow) = none →
      (Cosmos.execute_reveal_secret s caller oid ow secret now).err = some .StdNotFound) ∧
    (∀ (s : Cosmos.State) (caller oid : String) (ow : Cosmos.Addr) (e : Cosmos.Escrow) (secret : List Nat) (now : Nat),
      KVMap.find? s.escrows (oid, ow) = some e →
      e.status ≠ .Active → now < e.timelock →
      Sha256.sha256 secret = e.hash → (caller = e.taker ∨ caller = s.contract_owner) →
      (Cosmos.execute_reveal_secret s caller oid ow secret now).err = some .EscrowNotActive) ∧
    (∀ (s : Cosmos.State) (caller oid : String) (ow : Cosmos.Addr) (e : Cosmos.Escrow) (secret : List Nat) (now : Nat),
      KVMap.find? s.escrows (oid, ow) = some e →
      e.status = .Active → e.timelock ≤ now →
      Sha256.sha256 secret = e.hash → (caller = e.taker ∨ caller = s.contract_owner) →
      (Cosmos.execute_reveal_secret s caller oid ow secret now).err = some .TimelockExpired) ∧
    (∀ (s : Cosmos.State) (caller oid : String) (ow : Cosmos.Addr) (e : Cosmos.Escrow) (secret : List Nat) (now : Nat),
      KVMap.find? s.escrows (oid, ow) = some e →
      e.status = .Active → now < e.timelock →
      Sha256.sha256 secret ≠ e.hash → (caller = e.taker ∨ caller = s.contract_owner) →
      (Cosmos.execute_reveal_secret s caller oid ow secret now).err = some .HashMismatch) ∧
    (∀ (s : Cosmos.State) (caller oid : String) (ow : Cosmos.Addr) (e : Cosmos.Escrow) (secret : List Nat) (now : Nat),
      KVMap.find? s.escrows (oid, ow) = some e →
      e.status = .Active → now < e.timelock →
      Sha256.sha256 secret = e.hash → ¬(caller = e.taker ∨ caller = s.contract_owner) →
      (Cosmos.execute_reveal_secret s caller oid ow secret now).err = some .Unauthorized) := by
  refine ⟨?_, ?_, ?_, ?_, ?_, ?_, ?_, ?_, ?_, ?_, ?_, ?_, ?_, ?_, ?_, ?_, ?_, ?_⟩
  · intro c caller oid ow e secret now hfind
    unfold Near.reveal_secret
    rw [hfind]
    repeat' split
    all_goals simp_all [Near.validate_secret, Cosmos.hash_secret]
    all_goals omega
  · intro c caller oid ow secret now hfind
    unfold Near.reveal_secret
    rw [hfind]
  · intro c caller oid ow e secret now hfind h1 h2 h3 h4
    unfold Near.reveal_secret
    rw [hfind]
    repeat' split
    all_goals simp_all [Near.validate_secret, Cosmos.hash_secret]
    all_goals omega
  · intro c caller oid ow e secret now hfind h1 h2 h3 h4
    unfold Near.reveal_secret
    rw [hfind]
    repeat' split
    all_goals simp_all [Near.validate_secret, Cosmos.hash_secret]
    all_goals omega
  · intro c caller oid ow e secret now hfind h1 h2 h3 h4
    unfold Near.reveal_secret
    rw [hfind]
    repeat' split
    all_goals simp_all [Near.validate_secret, Cosmos.hash_secret]
    all_goals omega
  · intro c caller oid ow e secret now hfind h1 h2 h3 h4
    unfold Near.reveal_secret
    rw [hfind]
    repeat' split
    all_goals simp_all [Near.validate_secret, Cosmos.hash_secret]
    all_goals omega
  · intro st caller oid ow e secret now hfind
    unfold Stellar.reveal_secret
    rw [hfind]
    repeat' split
    all_goals simp_all [Near.validate_secret, Cosmos.hash_secret]
    all_goals omega
  · intro st caller oid ow secret now hfind
    unfold Stellar.reveal_secret
    rw [hfind]
  · intro st caller oid ow e secret now hfind h1 h2 h3 h4
    unfold Stellar.reveal_secret
    rw [hfind]
    repeat' split
    all_goals simp_all [Near.validate_secret, Cosmos.hash_secret]
    all_goals omega
  · intro st caller oid ow e secret now hfind h1 h2 h3 h4
    unfold Stellar.reveal_secret
    rw [hfind]
    repeat' split
    all_goals simp_all [Near.validate_secret, Cosmos.hash_secret]
    all_goals omega
  · intro st caller oid ow e secret now hfind h1 h2 h3 h4
    unfold Stellar.reveal_secret
    rw [hfind]
    repeat' split
    all_goals simp_all [Near.validate_secret, Cosmos.hash_secret]
    all_goals omega
  · intro st caller oid ow e secret now hfind h1 h2 h3 h4
    unfold Stellar.reveal_secret
    rw [hfind]
    repeat' split
    all_goals simp_all [Near.validate_secret, Cosmos.hash_secret]
    all_goals omega
  · intro s caller oid ow e secret now hfind
    unfold Cosmos.execute_reveal_secret
    rw [hfind]
    repeat' split
    all_goals simp_all [Near.validate_secret, Cosmos.hash_secret]
    all_goals omega
  · intro s caller oid ow secret now hfind
    unfold Cosmos.execute_reveal_secret
    rw [hfind]
  · intro s caller oid ow e secret now hfind h1 h2 h3 h4
    unfold Cosmos.execute_reveal_secret
    rw [hfind]
    repeat' split
    all_goals simp_all [Near.validate_secret, Cosmos.hash_secret]
    all_goals omega
  · intro s caller oid ow e secret now hfind h1 h2 h3 h4
    unfold Cosmos.execute_reveal_secret
    rw [hfind]
    repeat' split
    all_goals simp_all [Near.validate_secret, Cosmos.hash_secret]
    all_goals omega
  · intro s caller oid ow e secret now hfind h1 h2 h3 h4
    unfold Cosmos.execute_reveal_secret
    rw [hfind]
    repeat' split
    all_goals simp_all [Near.validate_secret, Cosmos.hash_secret]
    all_goals omega
  · intro s caller oid ow e secret now hfind h1 h2 h3 h4
    unfold Cosmos.execute_reveal_secret
    rw [hfind]
    repeat' split
    all_goals simp_all [Near.validate_secret, Cosmos.hash_secret]
    all_goals omega

/-- A NEAR escrow whose hash commits to the secret `[1]`. -/
def nearEGood : Near.Escrow :=
  ⟨"ord-2", Sha256.sha256 [1], "alice", "bob", "tok", 1000, 100, .ACTIVE, 0⟩

/-- A NEAR contract state holding `nearEGood`. -/
def nearCGood : Near.Contract := ⟨[(("ord-2", "alice"), nearEGood)], "admin", 1⟩

/-- A Soroban escrow whose hash commits to the secret `[1]`. -/
def stellarEGood : Stellar.Escrow :=
  ⟨"ord-2", Sha256.sha256 [1], "alice", "bob", "tok", 1000, 100, .Active, 0⟩

/-- A Soroban store holding `stellarEGood`. -/
def stellarStGood : Stellar.Store := [(("ord-2", "alice"), stellarEGood)]

/-- A CosmWasm escrow whose hash commits to the secret `[1]`. -/
def cosmosEGood : Cosmos.Escrow :=
  ⟨"ord-2", Sha256.sha256 [1], "alice", "bob", .Native "uatom", 1000, 100, .Active, 0⟩

/-- A CosmWasm state holding `cosmosEGood`. -/
def cosmosSGood : Cosmos.State := ⟨[(("ord-2", "alice"), cosmosEGood)], "admin"⟩

/-- C5 witness: the taker's reveal with the committed secret succeeds on
NEAR; a wrong secret fails with the hash-mismatch error on Soroban; an
unrelated caller with the right secret fails with the unauthorized error
on CosmWasm. -/
theorem C5_reveal_correctness_witness :
    (Near.reveal_secret nearCGood "bob" "ord-2" "alice" [1] 50).err = none ∧
    (Stellar.reveal_secret stellarStGood "bob" "ord-2" "alice" [2] 50).err =
      some .HashMismatch ∧
    (Cosmos.execute_reveal_secret cosmosSGood "carol" "ord-2" "alice" [1] 50).err =
      some .Unauthorized :=
  ⟨(C5_reveal_correctness.1 nearCGood "bob" "ord-2" "alice" nearEGood [1] 50 (by decide)).mpr
      ⟨rfl, by decide, rfl, Or.inl rfl⟩,
   C5_reveal_correctness.2.2.2.2.2.2.2.2.2.2.1 stellarStGood "bob" "ord-2" "alice" stellarEGood
     [2] 50 (by decide) rfl (by decide) (by decide) (Or.inl rfl),
   C5_reveal_correctness.2.2.2.2.2.2.2.2.2.2.2.2.2.2.2.2.2 cosmosSGood "carol" "ord-2" "alice"
     cosmosEGood [1] 50 (by decide) rfl (by decide) rfl (by decide)⟩

/-- A COMPLETED (terminal) NEAR escrow. -/
def nearETerm : Near.Escrow :=
  ⟨"ord-1", List.replicate 32 1, "alice", "bob", "tok", 1000, 100, .COMPLETED, 0⟩

/-- A NEAR contract state holding the terminal `nearETerm`. -/
def nearCTerm : Near.Contract := ⟨[(("ord-1", "alice"), nearETerm)], "admin", 1⟩

/-- A CANCELLED (terminal) Soroban escrow. -/
def stellarETerm : Stellar.Escrow :=
  ⟨"ord-1", List.replicate 32 1, "alice", "bob", "tok", 1000, 100, .Cancelled, 0⟩

/-- A Soroban store holding the terminal `stellarETerm`. -/
def stellarStTerm : Stellar.Store := [(("ord-1", "alice"), stellarETerm)]

/-- A COMPLETED (terminal) CosmWasm escrow. -/
def cosmosETerm : Cosmos.Escrow :=
  ⟨"ord-1", List.replicate 32 1, "alice", "bob", .Native "uatom", 1000, 100, .Completed, 0⟩

/-- A CosmWasm state holding the terminal `cosmosETerm`. -/
def cosmosSTerm : Cosmos.State := ⟨[(("ord-1", "alice"), cosmosETerm)], "admin"⟩

/-- C6 counterexample: in the NEAR variant the authorization check runs
before the status check, so a cancel of a COMPLETED escrow by an
unauthorized caller fails with `unauthorized`, not `notActive` as the
claim requires. -/
theorem C6_terminal_counterexample :
    (Near.cancel_escrow nearCTerm "carol" "ord-1" "alice" 500).err =
      some .unauthorized := by decide

/-- C6 (amended): once a record is COMPLETED or CANCELLED it never changes
again — any sequence of operations leaves it exactly as it is, and a
create on its key fails without touching the state.  Reveal and cancel on
a non-ACTIVE record always fail; the error is `NotActive` unconditionally
in the Soroban and CosmWasm variants (status is checked first) and, in the
NEAR variant, `NotActive` for an authorized caller but `Unauthorized` for
anyone else. -/
theorem C6_terminal_state :
    (∀ (c : Near.Contract) (k : String × String) (e : Near.Escrow) (ops : List Near.Op),
      KVMap.find? c.escrows k = some e → e.status ≠ .ACTIVE →
      KVMap.find? (Near.run c ops).escrows k = some e) ∧
    (∀ (st : Stellar.Store) (k : String × String) (e : Stellar.Escrow) (ops : List Stellar.Op),
      KVMap.find? st k = some e → e.status ≠ .Active →
      KVMap.find? (Stellar.run st ops) k = some e) ∧
    (∀ (s : Cosmos.State) (k : String × String) (e : Cosmos.Escrow) (ops : List Cosmos.Op),
      KVMap.find? s.escrows k = some e → e.status ≠ .Active →
      KVMap.find? (Cosmos.run s ops).escrows k = some e) ∧
    (∀ (c : Near.Contract) (caller oid : String) (ow : Near.AccountId) (e : Near.Escrow)
      (secret : List Nat) (now : Nat), KVMap.find? c.escrows (oid, ow) = some e →
      e.status ≠ .ACTIVE →
      (Near.reveal_secret c caller oid ow secret now).err.isSome ∧
      ((caller = e.taker ∨ caller = c.owner) →
        (Near.reveal_secret c caller oid ow secret now).err = some .notActive)) ∧
    (∀ (c : Near.Contract) (caller oid : String) (ow : Near.AccountId) (e : Near.Escrow)
      (now : Nat), KVMap.find? c.escrows (oid, ow) = some e → e.status ≠ .ACTIVE →
      (Near.cancel_escrow c caller oid ow now).err.isSome ∧
      ((caller = e.owner ∨ caller = c.owner) →
        (Near.cancel_escrow c caller oid ow now).err = some .notActive)) ∧
    (∀ (st : Stellar.Store) (caller oid : String) (ow : Stellar.Address) (e : Stellar.Escrow)
      (secret : List Nat) (now : Nat), KVMap.find? st (oid, ow) = some e →
      e.status ≠ .Active →
      (Stellar.reveal_secret st caller oid ow secret now).err = some .EscrowNotActive) ∧
    (∀ (st : Stellar.Store) (caller oid : String) (ow : Stellar.Address) (e : Stellar.Escrow)
      (now : Nat), KVMap.find? st (oid, ow) = some e → e.status ≠ .Active →
      (Stellar.cancel_escrow st caller oid ow now).err = some .EscrowNotActive) ∧
    (∀ (s : Cosmos.State) (caller oid : String) (ow : Cosmos.Addr) (e : Cosmos.Escrow)
      (secret : List Nat) (now : Nat), KVMap.find? s.escrows (oid, ow) = some e →
      e.status ≠ .Active →
      (Cosmos.execute_reveal_secret s caller oid ow secret now).err =
        some .EscrowNotActive) ∧
    (∀ (s : Cosmos.State) (caller oid : String) (ow : Cosmos.Addr) (e : Cosmos.Escrow)
      (now : Nat), KVMap.find? s.escrows (oid, ow) = some e → e.status ≠ .Active →
      (Cosmos.execute_cancel_escrow s caller oid ow now).err = some .EscrowNotActive) ∧
    (∀ (c : Near.Contract) (oid : String) (ow : Near.AccountId) (e : Near.Escrow)
      (hash : List Nat) (taker tc : Near.AccountId) (amt dur now : Nat),
      KVMap.find? c.escrows (oid, ow) = some e →
      (Near.create_escrow c ow oid hash taker tc amt dur now).err.isSome ∧
      (Near.create_escrow c ow oid hash taker tc amt dur now).state = c) ∧
    (∀ (st : Stellar.Store) (oid : String) (ow : Stellar.Address) (e : Stellar.Escrow)
      (hash : List Nat) (taker tc : Stellar.Address) (amt : Int) (dur now : Nat),
      KVMap.find? st (oid, ow) = some e →
      (Stellar.create_escrow st ow oid hash taker tc amt dur now).err.isSome ∧
      (Stellar.create_escrow st ow oid hash taker tc amt dur now).store = st) ∧
    (∀ (s : Cosmos.State) (oid : String) (ow : Cosmos.Addr) (e : Cosmos.Escrow)
      (funds : List (String × Nat)) (hash : List Nat) (taker : Cosmos.Addr)
      (token : Cosmos.TokenInfo) (amt dur now : Nat),
      KVMap.find? s.escrows (oid, ow) = some e →
      (Cosmos.execute_create_escrow s ow funds oid hash taker token amt dur now).err.isSome ∧
      (Cosmos.execute_create_escrow s ow funds oid hash taker token amt dur now).state = s) := by
  refine ⟨?_, ?_, ?_, ?_, ?_, ?_, ?_, ?_, ?_, ?_, ?_, ?_⟩
  · intro c k e ops hfind hne
    obtain ⟨e', hf, himp⟩ := near_run_find c ops k e hfind
    rw [hf, himp hne]
  · intro st k e ops hfind hne
    obtain ⟨e', hf, himp⟩ := stellar_run_find st ops k e hfind
    rw [hf, himp hne]
  · intro s k e ops hfind hne
    obtain ⟨e', hf, himp⟩ := cosmos_run_find s ops k e hfind
    rw [hf, himp hne]
  · intro c caller oid ow e secret now hfind hne
    unfold Near.reveal_secret
    rw [hfind]
    repeat' split
    all_goals simp_all
  · intro c caller oid ow e now hfind hne
    unfold Near.cancel_escrow
    rw [hfind]
    repeat' split
    all_goals simp_all
  · intro st caller oid ow e secret now hfind hne
    unfold Stellar.reveal_secret
    rw [hfind]
    repeat' split
    all_goals simp_all
  · intro st caller oid ow e now hfind hne
    unfold Stellar.cancel_escrow
    rw [hfind]
    repeat' split
    all_goals simp_all
  · intro s caller oid ow e secret now hfind hne
    unfold Cosmos.execute_reveal_secret
    rw [hfind]
    repeat' split
    all_goals simp_all
  · intro s caller oid ow e now hfind hne
    unfold Cosmos.execute_cancel_escrow
    rw [hfind]
    repeat' split
    all_goals simp_all
  · intro c oid ow e hash taker tc amt dur now hfind
    have h := near_create_on_present c ow oid hash taker tc amt dur now (by rw [hfind]; rfl)
    exact ⟨h.1, h.2.1⟩
  · intro st oid ow e hash taker tc amt dur now hfind
    have h := stellar_create_on_present st ow oid hash taker tc amt dur now (by rw [hfind]; rfl)
    exact ⟨h.1, h.2.1⟩
  · intro s oid ow e funds hash taker token amt dur now hfind
    have h := cosmos_create_on_present s ow funds oid hash taker token amt dur now
      (by rw [hfind]; rfl)
    exact ⟨h.1, h.2.1⟩

/-- C6 witness: the amended statement at concrete inputs — the terminal
records survive a cancel attempt unchanged, reveal/cancel on them fail
with the stated kinds, and creates on their keys fail. -/
theorem C6_terminal_state_witness :
    KVMap.find? (Near.run nearCTerm [.cancel "alice" "ord-1" "alice" 500]).escrows
      ("ord-1", "alice") = some nearETerm ∧
    ((Near.reveal_secret nearCTerm "bob" "ord-1" "alice" [1] 50).err = some .notActive) ∧
    ((Stellar.cancel_escrow stellarStTerm "alice" "ord-1" "alice" 500).err =
      some .EscrowNotActive) ∧
    ((Cosmos.execute_reveal_secret cosmosSTerm "bob" "ord-1" "alice" [1] 50).err =
      some .EscrowNotActive) ∧
    (Near.create_escrow nearCTerm "alice" "ord-1" (List.replicate 32 2) "bob" "tok"
      7 60 5).err.isSome :=
  ⟨C6_terminal_state.1 nearCTerm ("ord-1", "alice") nearETerm
      [.cancel "alice" "ord-1" "alice" 500] (by decide) (by decide),
   (C6_terminal_state.2.2.2.1 nearCTerm "bob" "ord-1" "alice" nearETerm [1] 50 (by decide)
      (by decide)).2 (Or.inl rfl),
   C6_terminal_state.2.2.2.2.2.2.1 stellarStTerm "alice" "ord-1" "alice" stellarETerm 500
     (by decide) (by decide),
   C6_terminal_state.2.2.2.2.2.2.2.1 cosmosSTerm "bob" "ord-1" "alice" cosmosETerm [1] 50
     (by decide) (by decide),
   (C6_terminal_state.2.2.2.2.2.2.2.2.2.1 nearCTerm "ord-1" "alice" nearETerm
      (List.replicate 32 2) "bob" "tok" 7 60 5 (by decide)).1⟩

/-- C7 counterexample: the Soroban `is_escrow_active` does not return
false for an unknown key — it fails with `EscrowNotFound` (as do its
`get_escrow` and `is_timelock_expired`). -/
theorem C7_queries_counterexample :
    Stellar.is_escrow_active [] "no-such-order" "nobody" = .error .EscrowNotFound ∧
    Stellar.is_timelock_expired [] "no-such-order" "nobody" 5 = .error .EscrowNotFound :=
  ⟨rfl, rfl⟩

/-- C7 (amended): for a key with no stored record, `exists` returns false
in all three variants; NEAR's `get` returns `none` while the Soroban and
CosmWasm `get` fail with their not-found error; `isActive` and
`isTimelockExpired` return false in the NEAR and CosmWasm variants but
fail with `EscrowNotFound` in the Soroban variant.  (The queries are pure
reads: they take the state and return only the answer.) -/
theorem C7_queries_unknown_key :
    (∀ (c : Near.Contract) (oid : String) (ow : Near.AccountId) (now : Nat),
      KVMap.find? c.escrows (oid, ow) = none →
      Near.escrow_exists c oid ow = false ∧
      Near.get_escrow c oid ow = none ∧
      Near.is_escrow_active c oid ow = false ∧
      Near.is_timelock_expired c oid ow now = false) ∧
    (∀ (s : Cosmos.State) (oid : String) (ow : Cosmos.Addr) (now : Nat),
      KVMap.find? s.escrows (oid, ow) = none →
      Cosmos.query_escrow_exists s oid ow = false ∧
      Cosmos.query_get_escrow s oid ow = .error .StdNotFound ∧
      Cosmos.query_is_escrow_active s oid ow = false ∧
      Cosmos.query_is_timelock_expired s oid ow now = false) ∧
    (∀ (st : Stellar.Store) (oid : String) (ow : Stellar.Address) (now : Nat),
      KVMap.find? st (oid, ow) = none →
      Stellar.escrow_exists st oid ow = false ∧
      Stellar.get_escrow st oid ow = .error .EscrowNotFound ∧
      Stellar.is_escrow_active st oid ow = .error .EscrowNotFound ∧
      Stellar.is_timelock_expired st oid ow now = .error .EscrowNotFound) := by
  refine ⟨?_, ?_, ?_⟩
  · intro c oid ow now h
    simp [Near.escrow_exists, Near.get_escrow, Near.is_escrow_active,
      Near.is_timelock_expired, h]
  · intro s oid ow now h
    simp [Cosmos.query_escrow_exists, Cosmos.query_get_escrow,
      Cosmos.query_is_escrow_active, Cosmos.query_is_timelock_expired, h]
  · intro st oid ow now h
    simp [Stellar.escrow_exists, Stellar.get_escrow, Stellar.is_escrow_active,
      Stellar.is_timelock_expired, h]

/-- C7 witness: the amended statement on the empty stores. -/
theorem C7_queries_unknown_key_witness :
    Near.escrow_exists ⟨[], "admin", 0⟩ "ord-1" "alice" = false ∧
    Cosmos.query_is_escrow_active ⟨[], "admin"⟩ "ord-1" "alice" = false ∧
    Stellar.get_escrow [] "ord-1" "alice" = .error .EscrowNotFound :=
  ⟨(C7_queries_unknown_key.1 ⟨[], "admin", 0⟩ "ord-1" "alice" 5 (by decide)).1,
   (C7_queries_unknown_key.2.1 ⟨[], "admin"⟩ "ord-1" "alice" 5 (by decide)).2.2.1,
   (C7_queries_unknown_key.2.2 [] "ord-1" "alice" 5 (by decide)).2.1⟩

/-- C8: in every variant, every create, reveal or cancel (and the CosmWasm
receive-hook creation) that returns an error leaves the state exactly as
it was and issues no transfer instruction. -/
theorem C8_error_atomicity :
    (∀ (c : Near.Contract) (caller oid : String) (hash : List Nat)
      (taker tc : Near.AccountId) (amt dur now : Nat),
      (Near.create_escrow c caller oid hash taker tc amt dur now).err.isSome →
      (Near.create_escrow c caller oid hash taker tc amt dur now).state = c ∧
      (Near.create_escrow c caller oid hash taker tc amt dur now).transfers = []) ∧
    (∀ (c : Near.Contract) (caller oid : String) (ow : Near.AccountId) (secret : List Nat)
      (now : Nat), (Near.reveal_secret c caller oid ow secret now).err.isSome →
      (Near.reveal_secret c caller oid ow secret now).state = c ∧
      (Near.reveal_secret c caller oid ow secret now).transfers = []) ∧
    (∀ (c : Near.Contract) (caller oid : String) (ow : Near.AccountId) (now : Nat),
      (Near.cancel_escrow c caller oid ow now).err.isSome →
      (Near.cancel_escrow c caller oid ow now).state = c ∧
      (Near.cancel_escrow c caller oid ow now).transfers = []) ∧
    (∀ (st : Stellar.Store) (ow oid : String) (hash : List Nat) (taker tc : Stellar.Address)
      (amt : Int) (dur now : Nat),
      (Stellar.create_escrow st ow oid hash taker tc amt dur now).err.isSome →
      (Stellar.create_escrow st ow oid hash taker tc amt dur now).store = st ∧
      (Stellar.create_escrow st ow oid hash taker tc amt dur now).transfers = []) ∧
    (∀ (st : Stellar.Store) (caller oid : String) (ow : Stellar.Address) (secret : List Nat)
      (now : Nat), (Stellar.reveal_secret st caller oid ow secret now).err.isSome →
      (Stellar.reveal_secret st caller oid ow secret now).store = st ∧
      (Stellar.reveal_secret st caller oid ow secret now).transfers = []) ∧
    (∀ (st : Stellar.Store) (caller oid : String) (ow : Stellar.Address) (now : Nat),
      (Stellar.cancel_escrow st caller oid ow now).err.isSome →
      (Stellar.cancel_escrow st caller oid ow now).store = st ∧
      (Stellar.cancel_escrow st caller oid ow now).transfers = []) ∧
    (∀ (s : Cosmos.State) (sender : Cosmos.Addr) (funds : List (String × Nat)) (oid : String)
      (hash : List Nat) (taker : Cosmos.Addr) (token : Cosmos.TokenInfo) (amt dur now : Nat),
      (Cosmos.execute_create_escrow s sender funds oid hash taker token amt dur now).err.isSome →
      (Cosmos.execute_create_escrow s sender funds oid hash taker token amt dur now).state = s ∧
      (Cosmos.execute_create_escrow s sender funds oid hash taker token amt dur now).msgs = []) ∧
    (∀ (s : Cosmos.State) (isnd rsnd : Cosmos.Addr) (ramt : Nat)
      (pmsg : Option Cosmos.CreateEscrowMsg) (now : Nat),
      (Cosmos.execute_receive_cw20 s isnd rsnd ramt pmsg now).err.isSome →
      (Cosmos.execute_receive_cw20 s isnd rsnd ramt pmsg now).state = s ∧
      (Cosmos.execute_receive_cw20 s isnd rsnd ramt pmsg now).msgs = []) ∧
    (∀ (s : Cosmos.State) (sender oid : String) (ow : Cosmos.Addr) (secret : List Nat)
      (now : Nat), (Cosmos.execute_reveal_secret s sender oid ow secret now).err.isSome →
      (Cosmos.execute_reveal_secret s sender oid ow secret now).state = s ∧
      (Cosmos.execute_reveal_secret s sender oid ow secret now).msgs = []) ∧
    (∀ (s : Cosmos.State) (sender oid : String) (ow : Cosmos.Addr) (now : Nat),
      (Cosmos.execute_cancel_escrow s sender oid ow now).err.isSome →
      (Cosmos.execute_cancel_escrow s sender oid ow now).state = s ∧
      (Cosmos.execute_cancel_escrow s sender oid ow now).msgs = []) := by
  refine ⟨?_, ?_, ?_, ?_, ?_, ?_, ?_, ?_, ?_, ?_⟩
  · intro c caller oid hash taker tc amt dur now h
    unfold Near.create_escrow at h ⊢
    repeat' split
    all_goals simp_all
  · intro c caller oid ow secret now h
    unfold Near.reveal_secret at h ⊢
    repeat' split
    all_goals simp_all
  · intro c caller oid ow now h
    unfold Near.cancel_escrow at h ⊢
    repeat' split
    all_goals simp_all
  · intro st ow oid hash taker tc amt dur now h
    unfold Stellar.create_escrow at h ⊢
    repeat' split
    all_goals simp_all
  · intro st caller oid ow secret now h
    unfold Stellar.reveal_secret at h ⊢
    repeat' split
    all_goals simp_all
  · intro st caller oid ow now h
    unfold Stellar.cancel_escrow at h ⊢
    repeat' split
    all_goals simp_all
  · intro s sender funds oid hash taker token amt dur now h
    unfold Cosmos.execute_create_escrow at h ⊢
    repeat' split
    all_goals try simp_all
    all_goals try split
    all_goals simp_all
  · intro s isnd rsnd ramt pmsg now h
    unfold Cosmos.execute_receive_cw20 at h ⊢
    repeat' split
    all_goals simp_all
  · intro s sender oid ow secret now h
    unfold Cosmos.execute_reveal_secret at h ⊢
    repeat' split
    all_goals simp_all
  · intro s sender oid ow now h
    unfold Cosmos.execute_cancel_escrow at h ⊢
    repeat' split
    all_goals simp_all

/-- C8 witness: a not-found reveal on the empty NEAR state changes nothing
and issues no transfer. -/
theorem C8_error_atomicity_witness :
    (Near.reveal_secret ⟨[], "admin", 0⟩ "bob" "ord-1" "alice" [1] 50).state =
      ⟨[], "admin", 0⟩ ∧
    (Near.reveal_secret ⟨[], "admin", 0⟩ "bob" "ord-1" "alice" [1] 50).transfers = [] :=
  C8_error_atomicity.2.1 ⟨[], "admin", 0⟩ "bob" "ord-1" "alice" [1] 50 (by decide)

theorem Token.getBalance_set (a : Token.Accounts) (acct q : Token.AccountId) (v : Nat) :
    Token.getBalance (Token.setBalance a acct v) q =
      if acct = q then v else Token.getBalance a q := rfl

/-- C9 counterexample: the receiver reports 5 unused but only holds 3, so
`ft_resolve_transfer` moves nothing, emits no refund event, and still
returns 5 — the claimed unconditional refund does not happen. -/
theorem C9_resolve_counterexample :
    Token.ft_resolve_transfer [("r", 3)] "s" "r" 5 (.successful (some 5)) =
      ([("r", 3)], [], 5) := by decide

/-- C9 (amended): `ft_resolve_transfer` first clamps the reported unused
amount to `min(transferred, reported)` (taking the full transferred amount
when the notification failed or its result did not parse); it then moves
the clamped amount from receiver to sender and emits one "Refund" transfer
event only when the receiver's current balance covers it, and otherwise —
including a clamped amount of zero — changes no balances and emits no
event; the clamped amount is returned in every case. -/
theorem C9_resolve_refund :
    (∀ (accounts : Token.Accounts) (s r : Token.AccountId) (amount u : Nat),
      (Token.ft_resolve_transfer accounts s r amount (.successful (some u))).2.2 =
        min amount u) ∧
    (∀ (accounts : Token.Accounts) (s r : Token.AccountId) (amount : Nat),
      (Token.ft_resolve_transfer accounts s r amount .failed).2.2 = amount ∧
      (Token.ft_resolve_transfer accounts s r amount (.successful none)).2.2 = amount) ∧
    (∀ (accounts : Token.Accounts) (s r : Token.AccountId) (amount u : Nat),
      0 < min amount u → min amount u ≤ Token.getBalance accounts r → r ≠ s →
      Token.getBalance (Token.ft_resolve_transfer accounts s r amount
        (.successful (some u))).1 r = Token.getBalance accounts r - min amount u ∧
      Token.getBalance (Token.ft_resolve_transfer accounts s r amount
        (.successful (some u))).1 s = Token.getBalance accounts s + min amount u ∧
      (Token.ft_resolve_transfer accounts s r amount (.successful (some u))).2.1 =
        [⟨r, s, min amount u, some "Refund"⟩]) ∧
    (∀ (accounts : Token.Accounts) (s r : Token.AccountId) (amount u : Nat),
      Token.getBalance accounts r < min amount u →
      (Token.ft_resolve_transfer accounts s r amount (.successful (some u))).1 = accounts ∧
      (Token.ft_resolve_transfer accounts s r amount (.successful (some u))).2.1 = []) ∧
    (∀ (accounts : Token.Accounts) (s r : Token.AccountId) (amount u : Nat),
      min amount u = 0 →
      (Token.ft_resolve_transfer accounts s r amount (.successful (some u))).1 = accounts ∧
      (Token.ft_resolve_transfer accounts s r amount (.successful (some u))).2.1 = []) := by
  refine ⟨?_, ?_, ?_, ?_, ?_⟩
  · intro accounts s r amount u
    unfold Token.ft_resolve_transfer
    dsimp only
    repeat' split
    all_goals rfl
  · intro accounts s r amount
    constructor
    all_goals unfold Token.ft_resolve_transfer
    all_goals dsimp only
    all_goals repeat' split
    all_goals rfl
  · intro accounts s r amount u h1 h2 hrs
    unfold Token.ft_resolve_transfer
    rw [if_pos h1, if_pos h2]
    refine ⟨?_, ?_, rfl⟩
    · simp [Token.getBalance_set, Ne.symm hrs]
    · simp [Token.getBalance_set, Ne.symm hrs, hrs]
  · intro accounts s r amount u hlt
    unfold Token.ft_resolve_transfer
    rw [if_pos (Nat.lt_of_le_of_lt (Nat.zero_le _) hlt), if_neg (Nat.not_le.mpr hlt)]
    exact ⟨rfl, rfl⟩
  · intro accounts s r amount u h0
    unfold Token.ft_resolve_transfer
    dsimp only
    rw [h0]
    simp

/-- C9 witness: the amended statement at concrete inputs — with the
receiver holding 10, a reported 4-of-7 unused is refunded and returned. -/
theorem C9_resolve_refund_witness :
    Token.getBalance (Token.ft_resolve_transfer [("r", 10)] "s" "r" 7
      (.successful (some 4))).1 "r" = 6 ∧
    Token.getBalance (Token.ft_resolve_transfer [("r", 10)] "s" "r" 7
      (.successful (some 4))).1 "s" = 4 ∧
    (Token.ft_resolve_transfer [("r", 10)] "s" "r" 7 (.successful (some 4))).2.1 =
      [⟨"r", "s", min 7 4, some "Refund"⟩] :=
  C9_resolve_refund.2.2.1 [("r", 10)] "s" "r" 7 4 (by decide) (by decide) (by decide)

/-- A CosmWasm escrow stored with a 3-byte hash (creation allows it). -/
def cosmosEShort : Cosmos.Escrow :=
  ⟨"ord-3", [1, 2, 3], "alice", "bob", .Native "uatom", 1000, 100, .Active, 0⟩

/-- A CosmWasm state holding `cosmosEShort`. -/
def cosmosSShort : Cosmos.State := ⟨[(("ord-3", "alice"), cosmosEShort)], "admin"⟩

/-- C10: the CosmWasm creation accepts any non-empty hash (length is not
checked) and stores it verbatim; since `hash_secret` always yields a
32-byte digest, a record whose stored hash is not 32 bytes long can never
be revealed — reveal fails for every secret, with `HashMismatch` whenever
the hash comparison is reached — while an owner cancel after the timelock
still succeeds, refunding the escrowed amount. -/
theorem C10_non32_hash_unrevealable :
    (∀ (s : Cosmos.State) (sender : Cosmos.Addr) (denom oid : String) (hash : List Nat)
      (taker : Cosmos.Addr) (amt dur now : Nat), amt ≠ 0 → hash ≠ [] →
      KVMap.find? s.escrows (oid, sender) = none →
      (Cosmos.execute_create_escrow s sender [(denom, amt)] oid hash taker (.Native denom)
        amt dur now).err = none ∧
      KVMap.find? (Cosmos.execute_create_escrow s sender [(denom, amt)] oid hash taker
        (.Native denom) amt dur now).state.escrows (oid, sender) =
        some ⟨oid, hash, sender, taker, .Native denom, amt, now + dur, .Active, now⟩) ∧
    (∀ (s : Cosmos.State) (sender oid : String) (ow : Cosmos.Addr) (e : Cosmos.Escrow)
      (secret : List Nat) (now : Nat), KVMap.find? s.escrows (oid, ow) = some e →
      e.hash.length ≠ 32 →
      (Cosmos.execute_reveal_secret s sender oid ow secret now).err ≠ none ∧
      (e.status = .Active → now < e.timelock →
        (sender = e.taker ∨ sender = s.contract_owner) →
        (Cosmos.execute_reveal_secret s sender oid ow secret now).err =
          some .HashMismatch)) ∧
    (∀ (s : Cosmos.State) (oid : String) (ow : Cosmos.Addr) (e : Cosmos.Escrow) (now : Nat),
      KVMap.find? s.escrows (oid, ow) = some e → e.status = .Active →
      e.timelock ≤ now →
      (Cosmos.execute_cancel_escrow s e.owner oid ow now).err = none ∧
      (Cosmos.execute_cancel_escrow s e.owner oid ow now).msgs =
        [Cosmos.transfer_msg e.token e.owner e.amount]) := by
  refine ⟨?_, ?_, ?_⟩
  · intro s sender denom oid hash taker amt dur now h1 h2 h3
    unfold Cosmos.execute_create_escrow
    simp [h1, h2, h3]
  · intro s sender oid ow e secret now hfind hlen
    have hne : Cosmos.hash_secret secret ≠ e.hash := by
      intro hEq
      apply hlen
      rw [← hEq]
      exact Sha256.sha256_length secret
    constructor
    · intro hnone
      unfold Cosmos.execute_reveal_secret at hnone
      rw [hfind] at hnone
      repeat' split at hnone
      all_goals simp_all
    · intro hact htl hauth
      unfold Cosmos.execute_reveal_secret
      rw [hfind]
      repeat' split
      all_goals simp_all
      all_goals omega
  · intro s oid ow e now hfind hact htl
    unfold Cosmos.execute_cancel_escrow
    rw [hfind]
    repeat' split
    all_goals simp_all
    all_goals omega

/-- C10 witness: the 3-byte-hash record is created, cannot be revealed
(hash mismatch for the taker with any secret), and is cancellable by its
owner after the timelock. -/
theorem C10_non32_hash_unrevealable_witness :
    (Cosmos.execute_create_escrow ⟨[], "admin"⟩ "alice" [("uatom", 1000)] "ord-3" [1, 2, 3]
      "bob" (.Native "uatom") 1000 100 0).err = none ∧
    (Cosmos.execute_reveal_secret cosmosSShort "bob" "ord-3" "alice" [1, 2, 3] 50).err =
      some .HashMismatch ∧
    (Cosmos.execute_cancel_escrow cosmosSShort "alice" "ord-3" "alice" 500).err = none :=
  ⟨(C10_non32_hash_unrevealable.1 ⟨[], "admin"⟩ "alice" "uatom" "ord-3" [1, 2, 3] "bob"
      1000 100 0 (by decide) (by decide) (by decide)).1,
   (C10_non32_hash_unrevealable.2.1 cosmosSShort "bob" "ord-3" "alice" cosmosEShort [1, 2, 3]
      50 (by decide) (by decide)).2 rfl (by decide) (Or.inl rfl),
   (C10_non32_hash_unrevealable.2.2 cosmosSShort "ord-3" "alice" cosmosEShort 500 (by decide)
      rfl (by decide)).1⟩
